import Mathlib

/-!
The form driver of `src/form_driver_w.c`

A shallow embedding of `form_driver(FORM *form, int status, int c)`.

* C `int` values (`status`, `c`, result codes, key codes, coordinates) are `Int`; the only
  arithmetic on them is `c - MIN_FORM_COMMAND`, `_begy + _maxy` and `++i`, none of which leaves
  the `int` range for operands of the source's types, so no wrap-around is modelled.
* Unsigned bit sets (`form->status`, `event.bstate`) are `Nat`.
* The form object lives in the state; the state also records, in call order, every call the
  driver makes to a collaborator that can have an effect.
* Nothing in the file under `src/` gives a value to the manifest constants or a body to the
  collaborators (they come from headers that are not part of it), so both are parameters,
  gathered in `Env`. `RETURN(code)` is read as the return of `code`, and the tracing macro
  `T(...)` as having no effect.
* `assert` is taken to be active: a failed assertion ends the run without a result code. So
  does an exhausted recursion budget (`Fault`).
* The braces of lines 206-210 do not balance in the source; the `else if` of line 206 is read
  as the last arm of the chain that starts on line 101, and lines 211-212 as the end of the
  function, as the indentation and the comment block of lines 39-63 have it.
* The calls `form_driver(form, REQ_...)` of lines 155-170 name two of the three arguments.
  They are read as recursive calls with the request as `c`; the `status` the callee sees is
  not determined by the source and is the parameter `Env.recursive_status`.
-/

namespace FormDriver

/-! ## The data and the collaborators -/

/-- Pointee of a `WINDOW *`: the two members the driver reads, and an identity. -/
structure WINDOW where
  id : Nat
  _begy : Int
  _maxy : Int
deriving DecidableEq, Repr

/-- The `MEVENT` record filled in by `getmouse`. -/
structure MEVENT where
  id : Int
  x : Int
  y : Int
  z : Int
  bstate : Nat
deriving DecidableEq, Repr

/-- Pointee of a `FIELD *`: its address, and the two members the driver's assertion reads
(`buf`, and `form`, the address of the owning form). -/
structure FIELD where
  addr : Nat
  buf : Option Nat
  form : Option Nat
deriving DecidableEq, Repr

/-- One element of `form->page`: the inclusive field-index bounds of a page. -/
structure PAGE where
  pmin : Int
  pmax : Int
deriving DecidableEq, Repr

/-- The form object. Pointer members are `Option`s (`none` is `NULL`); the two arrays are
functions of the index. `addr` is the address of the object itself. -/
structure FORM where
  addr : Nat
  status : Nat
  curpage : Int
  current : Option FIELD
  field : Option (Int → Option FIELD)
  page : Option (Int → PAGE)
  win : Option WINDOW
  sub : Option WINDOW

/-- One element of the `bindings` table: the packed key code and the handler pointer. -/
structure Binding_Info where
  keycode : Int
  cmd : Option Nat
deriving DecidableEq, Repr

/-- The overload wrappers named in the `Generic_Methods` table. -/
inductive Generic_Method where
  | Page_Navigation
  | Inter_Field_Navigation
  | Vertical_Scrolling
  | Horizontal_Scrolling
  | Field_Editing
deriving DecidableEq, Repr

/-- The table `Generic_Methods[]` of the source, `none` standing for its `NULL` entries. -/
def Generic_Methods : List (Option Generic_Method) :=
  [ some .Page_Navigation,        -- overloaded to call field&form hooks
    some .Inter_Field_Navigation, -- overloaded to call field hooks
    none,                         -- Intra-Field is generic
    some .Vertical_Scrolling,     -- overloaded to check multi-line
    some .Horizontal_Scrolling,   -- overloaded to check single-line
    some .Field_Editing,          -- overloaded to mark modification
    none,                         -- Edit Mode is generic
    none,                         -- Field Validation is generic
    none ]                        -- Choice Request is generic

/-- The count `sizeof(Generic_Methods) / sizeof(Generic_Methods[0])`. -/
def nMethods : Nat := Generic_Methods.length

/-- A call of the driver to a collaborator, as recorded in the state. -/
inductive Call where
  | first_active_field
  | method (fct : Generic_Method) (cmd : Nat)
  | cmd (cmd : Nat)
  | getmouse
  | set_current_field (field : Option FIELD)
  | position_form_cursor
  | data_entry (c : Int)
  | refresh_current_field
deriving DecidableEq, Repr

/-- The state the driver runs in: the form object and the record of collaborator calls. -/
structure World where
  form : FORM
  trace : List Call

/-- The `FORM *form` argument: `NULL`, or a pointer to the form object of the state. -/
inductive FormPtr where
  | NULL
  | ptr
deriving DecidableEq, Repr

/-- Ways a run ends without a result code. -/
inductive Fault where
  | out_of_fuel
  | assertion
  | null_dereference
deriving DecidableEq, Repr

/-- Everything the source takes from its headers: manifest constants, the `bindings` table,
macros and the collaborating functions. Functions that take the form return the form they
leave behind. `recursive_status` is the value the callee receives as `status` in the calls
`form_driver(form, REQ_...)` of the mouse branch, which name only the form and the request. -/
structure Env where
  E_OK : Int
  E_SYSTEM_ERROR : Int
  E_BAD_ARGUMENT : Int
  E_NOT_POSTED : Int
  E_BAD_STATE : Int
  E_REQUEST_DENIED : Int
  E_NOT_CONNECTED : Int
  E_UNKNOWN_COMMAND : Int
  FIRST_ACTIVE_MAGIC : Int
  MIN_FORM_COMMAND : Int
  MAX_FORM_COMMAND : Int
  KEY_MOUSE : Int
  KEY_CODE_YES : Int
  Key_Mask : Int
  ID_Shft : Nat
  _IN_DRIVER : Nat
  _POSTED : Nat
  BUTTON1_CLICKED : Nat
  BUTTON1_DOUBLE_CLICKED : Nat
  BUTTON1_TRIPLE_CLICKED : Nat
  REQ_PREV_FIELD : Int
  REQ_PREV_PAGE : Int
  REQ_FIRST_FIELD : Int
  REQ_NEXT_FIELD : Int
  REQ_NEXT_PAGE : Int
  REQ_LAST_FIELD : Int
  bindings : Int → Binding_Info
  call_cmd : Nat → FORM → Int × FORM
  call_method : Generic_Method → Nat → FORM → Int × FORM
  _nc_First_Active_Field : FORM → Option FIELD
  StdScreen : FORM → WINDOW
  getmouse : MEVENT
  wenclose : WINDOW → Int → Int → Bool
  mouse_trafo : Int → Int → Option (Int × Int)
  wmouse_trafo : WINDOW → Int → Int → Option (Int × Int)
  Field_Is_Selectable : Option FIELD → Bool
  Field_encloses : Option FIELD → Int → Int → Int
  _nc_Set_Current_Field : FORM → Option FIELD → Int × FORM
  _nc_Position_Form_Cursor : FORM → Int × FORM
  Data_Entry : FORM → Int → Int × FORM
  _nc_Refresh_Current_Field : FORM → FORM
  recursive_status : Int

/-! ## The driver -/

/-- Run a collaborator that takes the form and returns a code, recording the call. -/
def World.run (w : World) (call : Call) (fn : FORM → Int × FORM) : Int × World :=
  ((fn w.form).1, { form := (fn w.form).2, trace := w.trace ++ [call] })

/-- The expression `(BI->keycode >> ID_Shft) & 0xffff` of line 117, as the `size_t` it is
stored in. The shift is the arithmetic one; the masked value is never negative. -/
def method_of (E : Env) (BI : Binding_Info) : Nat :=
  (Int.land (BI.keycode >>> E.ID_Shft) 0xffff).toNat

/-- The lookup of lines 97-99: the entry of the table when `c` is in the request range and
the entry stores `c`, otherwise `NULL`. -/
def lookup (E : Env) (c : Int) : Option Binding_Info :=
  if (c ≥ E.MIN_FORM_COMMAND ∧ c ≤ E.MAX_FORM_COMMAND) ∧
      Int.land (E.bindings (c - E.MIN_FORM_COMMAND)).keycode E.Key_Mask = c then
    some (E.bindings (c - E.MIN_FORM_COMMAND))
  else
    none

/-- The request branch, lines 101-130. -/
def request (E : Env) (BI : Binding_Info) (w : World) : Int × World :=
  let method := method_of E BI
  if method ≥ nMethods then
    (E.E_SYSTEM_ERROR, w)
  else
    match BI.cmd with
    | none => (E.E_SYSTEM_ERROR, w)
    | some cmd =>
      match Generic_Methods.getD method none with
      | some fct => w.run (.method fct cmd) (E.call_method fct cmd)
      | none => w.run (.cmd cmd) (E.call_cmd cmd)

/-- The body of the loop for a field that is hit, lines 190-195: make it current, on success
place the cursor, and on success of both turn a double click into `E_UNKNOWN_COMMAND`. -/
def select_field (E : Env) (bstate : Nat) (field : Option FIELD) (w : World) : Int × World :=
  let r1 := w.run (.set_current_field field) (fun f => E._nc_Set_Current_Field f field)
  let r2 := if r1.1 = E.E_OK then r1.2.run .position_form_cursor E._nc_Position_Form_Cursor
            else r1
  if r2.1 = E.E_OK ∧ bstate &&& E.BUTTON1_DOUBLE_CLICKED ≠ 0 then
    (E.E_UNKNOWN_COMMAND, r2.2)
  else
    r2

/-- The loop of lines 183-198 from index `i` on, with `k` iterations left to run
(`k` is `max_field - i + 1`). `res` is the value of the variable `res` on entry. -/
def hit_loop (E : Env) (field : Int → Option FIELD) (bstate : Nat) (ry rx : Int) (res : Int) :
    Nat → Int → World → Int × World
  | 0, _, w => (res, w)
  | k + 1, i, w =>
    if E.Field_Is_Selectable (field i) ∧ E.Field_encloses (field i) ry rx = E.E_OK then
      select_field E bstate (field i) w
    else
      hit_loop E field bstate ry rx res k (i + 1) w

/-- The second assertion, lines 86-89. -/
def current_ok (f : FORM) : Bool :=
  match f.current with
  | none => false
  | some cur => cur.buf.isSome && (cur.form == some f.addr)

/-- The local `win` of line 134. -/
def form_win (E : Env) (f : FORM) : WINDOW :=
  match f.win with
  | some win => win
  | none => E.StdScreen f

/-- The local `sub` of line 135. -/
def form_sub (E : Env) (f : FORM) : WINDOW :=
  match f.sub with
  | some sub => sub
  | none => form_win E f

/-- The mouse branch, lines 132-205, up to the value it leaves in `res`. `self c w` stands
for the recursive call `form_driver(form, c)` made in state `w`; `field` is the array
`form->field`, known to be non-null at this point. -/
def mouse (E : Env) (self : Int → World → Except Fault (Int × World))
    (field : Int → Option FIELD) (w : World) : Except Fault (Int × World) :=
  let win := form_win E w.form
  let sub := form_sub E w.form
  let event := E.getmouse
  let w1 : World := { w with trace := w.trace ++ [.getmouse] }
  if event.bstate &&& (E.BUTTON1_CLICKED ||| E.BUTTON1_DOUBLE_CLICKED |||
        E.BUTTON1_TRIPLE_CLICKED) ≠ 0 ∧ E.wenclose win event.y event.x then
    match E.mouse_trafo event.y event.x with
    | none => .ok (E.E_REQUEST_DENIED, w1)
    | some (ry, _) =>
      if ry < sub._begy then
        if event.bstate &&& E.BUTTON1_CLICKED ≠ 0 then self E.REQ_PREV_FIELD w1
        else if event.bstate &&& E.BUTTON1_DOUBLE_CLICKED ≠ 0 then self E.REQ_PREV_PAGE w1
        else if event.bstate &&& E.BUTTON1_TRIPLE_CLICKED ≠ 0 then self E.REQ_FIRST_FIELD w1
        else .ok (E.E_REQUEST_DENIED, w1)
      else if ry > sub._begy + sub._maxy then
        if event.bstate &&& E.BUTTON1_CLICKED ≠ 0 then self E.REQ_NEXT_FIELD w1
        else if event.bstate &&& E.BUTTON1_DOUBLE_CLICKED ≠ 0 then self E.REQ_NEXT_PAGE w1
        else if event.bstate &&& E.BUTTON1_TRIPLE_CLICKED ≠ 0 then self E.REQ_LAST_FIELD w1
        else .ok (E.E_REQUEST_DENIED, w1)
      else if E.wenclose sub event.y event.x then
        match E.wmouse_trafo sub event.y event.x with
        | none => .ok (E.E_REQUEST_DENIED, w1)
        | some (ry, rx) =>
          match w.form.page with
          | none => .error .null_dereference
          | some page =>
            let min_field := (page w.form.curpage).pmin
            let max_field := (page w.form.curpage).pmax
            .ok (hit_loop E field event.bstate ry rx E.E_REQUEST_DENIED
              (max_field - min_field + 1).toNat min_field w1)
      else .ok (E.E_REQUEST_DENIED, w1)
  else .ok (E.E_REQUEST_DENIED, w1)

/-- The classification of the symbol, lines 97-210, up to the value it leaves in `res`
(which starts as `E_UNKNOWN_COMMAND`, line 68). -/
def dispatch (E : Env) (self : Int → World → Except Fault (Int × World))
    (field : Int → Option FIELD) (status c : Int) (w : World) : Except Fault (Int × World) :=
  match lookup E c with
  | some BI => .ok (request E BI w)
  | none =>
    if E.KEY_MOUSE = c then
      mouse E self field w
    else if status ≠ E.KEY_CODE_YES then
      .ok (w.run (.data_entry c) (fun f => E.Data_Entry f c))
    else .ok (E.E_UNKNOWN_COMMAND, w)

/-- Lines 211-212: refresh the current field and return `res`. -/
def finish (E : Env) : Except Fault (Int × World) → Except Fault (Int × World)
  | .error e => .error e
  | .ok (res, w) =>
    .ok (res, { form := E._nc_Refresh_Current_Field w.form,
                trace := w.trace ++ [.refresh_current_field] })

/-- The driver. The first argument bounds the depth of the recursion: the recursive calls of
the mouse branch run with one less. `RETURN(code)` is the return of `code`. -/
def form_driver (E : Env) : Nat → FormPtr → Int → Int → World → Except Fault (Int × World)
  | 0, _, _, _, _ => .error .out_of_fuel
  | fuel + 1, form, status, c, w =>
    match form with
    | .NULL => .ok (E.E_BAD_ARGUMENT, w)
    | .ptr =>
      match w.form.field with
      | none => .ok (E.E_NOT_CONNECTED, w)
      | some field =>
        if w.form.page.isNone then .error .assertion
        else if c = E.FIRST_ACTIVE_MAGIC then
          .ok (E.E_OK,
            { form := { w.form with current := E._nc_First_Active_Field w.form },
              trace := w.trace ++ [.first_active_field] })
        else if !current_ok w.form then .error .assertion
        else if w.form.status &&& E._IN_DRIVER ≠ 0 then .ok (E.E_BAD_STATE, w)
        else if w.form.status &&& E._POSTED = 0 then .ok (E.E_NOT_POSTED, w)
        else
          finish E (dispatch E (fun c w => form_driver E fuel .ptr E.recursive_status c w)
            field status c w)

/-! ## Reading an outcome -/

/-- Result code of a run, when it returned one. -/
def result_code : Except Fault (Int × World) → Option Int
  | .ok (res, _) => some res
  | .error _ => none

/-- Current field left by a run, when it returned. -/
def final_current : Except Fault (Int × World) → Option (Option FIELD)
  | .ok (_, w) => some w.form.current
  | .error _ => none

/-- Collaborator calls recorded by a run, when it returned. -/
def final_trace : Except Fault (Int × World) → Option (List Call)
  | .ok (_, w) => some w.trace
  | .error _ => none

/-! ## A sample environment

The constants have the values of the ncurses headers (`curses.h`, `form.h`, `form.priv.h`);
the collaborators are simple stand-ins. It serves to evaluate the driver on concrete inputs. -/

/-- Sample binding table: entry `i` stores request `512 + i`; the category is `i / 8` (so
entries 16..23 are generic intra-field requests, and entries from 72 on have no category);
entry 31 has lost its handler and entry 30 stores a foreign code. -/
def sample_bindings (i : Int) : Binding_Info :=
  if i = 30 then { keycode := 600, cmd := some 30 }
  else { keycode := (512 + i) + 65536 * (i / 8), cmd := if i = 31 then none else some i.toNat }

/-- Sample field of address `a`, owned by the form at address 1. -/
def sample_field (a : Nat) : FIELD := { addr := a, buf := some (1000 + a), form := some 1 }

/-- Sample environment. Handler `p` returns `-p` and marks the form by setting `curpage` to
`p`; a field of address `a` occupies row `a`, columns 0..9; fields of odd address are
selectable; data entry returns the character; refresh leaves the form as it is. -/
def sample_env : Env where
  E_OK := 0
  E_SYSTEM_ERROR := -1
  E_BAD_ARGUMENT := -2
  E_NOT_POSTED := -7
  E_BAD_STATE := -5
  E_REQUEST_DENIED := -12
  E_NOT_CONNECTED := -11
  E_UNKNOWN_COMMAND := -8
  FIRST_ACTIVE_MAGIC := -291056
  MIN_FORM_COMMAND := 512
  MAX_FORM_COMMAND := 568
  KEY_MOUSE := 409
  KEY_CODE_YES := 256
  Key_Mask := 0xffff
  ID_Shft := 16
  _IN_DRIVER := 2
  _POSTED := 1
  BUTTON1_CLICKED := 4
  BUTTON1_DOUBLE_CLICKED := 8
  BUTTON1_TRIPLE_CLICKED := 16
  REQ_PREV_FIELD := 517
  REQ_PREV_PAGE := 513
  REQ_FIRST_FIELD := 518
  REQ_NEXT_FIELD := 516
  REQ_NEXT_PAGE := 512
  REQ_LAST_FIELD := 519
  bindings := sample_bindings
  call_cmd := fun p f => (-p, { f with curpage := p })
  call_method := fun _ p f => (-p, { f with curpage := p })
  _nc_First_Active_Field := fun f =>
    match f.field with
    | some field => field 0
    | none => none
  StdScreen := fun _ => { id := 0, _begy := 0, _maxy := 23 }
  getmouse := { id := 0, x := 3, y := 5, z := 0, bstate := 4 }
  wenclose := fun win y _ => decide (win._begy ≤ y ∧ y ≤ win._begy + win._maxy)
  mouse_trafo := fun y x => some (y, x)
  wmouse_trafo := fun win y x => some (y - win._begy, x)
  Field_Is_Selectable := fun fld =>
    match fld with
    | some fld => decide (fld.addr % 2 = 1)
    | none => false
  Field_encloses := fun fld ry rx =>
    match fld with
    | some fld => if (fld.addr : Int) = ry ∧ 0 ≤ rx ∧ rx < 10 then 0 else -13
    | none => -13
  _nc_Set_Current_Field := fun f fld => (0, { f with current := fld })
  _nc_Position_Form_Cursor := fun f => (0, f)
  Data_Entry := fun f c => (c, f)
  _nc_Refresh_Current_Field := fun f => f
  recursive_status := 256

/-- Sample form object at address 1: five fields of addresses 10..14 on one page
`[0, 4]`, field 12 current, with the given status bits and windows. -/
def sample_form (status : Nat) (sub : Option WINDOW) : FORM where
  addr := 1
  status := status
  curpage := 0
  current := some (sample_field 12)
  field := some (fun i => if 0 ≤ i ∧ i < 5 then some (sample_field (10 + i.toNat)) else none)
  page := some (fun _ => { pmin := 0, pmax := 4 })
  win := none
  sub := sub

/-- Sample form object with no fields connected. -/
def sample_form_unconnected (status : Nat) : FORM where
  addr := 1
  status := status
  curpage := 0
  current := none
  field := none
  page := none
  win := none
  sub := none

/-- The sample environment with a double click in place of the single click. -/
def sample_env_double : Env :=
  { sample_env with getmouse := { id := 0, x := 3, y := 5, z := 0, bstate := 8 } }

/-! ## Conditions on the inputs, and what the claims expect -/

/-- The form passes the checks of lines 75-95 for a symbol other than the sentinel: fields
are connected, both assertions hold, it is not in the driver and it is posted. -/
def dispatchable (E : Env) (f : FORM) : Prop :=
  f.field.isSome ∧ f.page.isSome ∧ current_ok f = true ∧
    f.status &&& E._IN_DRIVER = 0 ∧ f.status &&& E._POSTED ≠ 0

instance (E : Env) (f : FORM) : Decidable (dispatchable E f) := by
  unfold dispatchable; infer_instance

/-- Effect of a handler call of the request branch on the form, and its result code. -/
def Env.perform (E : Env) : Call → FORM → Int × FORM
  | .method fct cmd => E.call_method fct cmd
  | .cmd cmd => E.call_cmd cmd
  | _ => fun f => (E.E_OK, f)

/-- The one call expected for a binding of category `id` with handler `cmd`: the handler
itself for the generic categories (2 intra-field navigation, 6 edit mode, 7 field validation,
8 choice), else the overload wrapper of the category (0 page navigation, 1 inter-field
navigation, 3 vertical scrolling, 4 horizontal scrolling, 5 field editing) given the handler. -/
def expected_call (id cmd : Nat) : Option Call :=
  match id with
  | 0 => some (.method .Page_Navigation cmd)
  | 1 => some (.method .Inter_Field_Navigation cmd)
  | 2 => some (.cmd cmd)
  | 3 => some (.method .Vertical_Scrolling cmd)
  | 4 => some (.method .Horizontal_Scrolling cmd)
  | 5 => some (.method .Field_Editing cmd)
  | 6 => some (.cmd cmd)
  | 7 => some (.cmd cmd)
  | 8 => some (.cmd cmd)
  | _ => none

/-- The symbol `c` is in the request range and its table entry stores `c`. -/
def bound (E : Env) (c : Int) : Prop :=
  (E.MIN_FORM_COMMAND ≤ c ∧ c ≤ E.MAX_FORM_COMMAND) ∧
    Int.land (E.bindings (c - E.MIN_FORM_COMMAND)).keycode E.Key_Mask = c

instance (E : Env) (c : Int) : Decidable (bound E c) := by
  unfold bound; infer_instance

/-- The state with the calls `t` recorded before its own. -/
def World.shift (t : List Call) (w : World) : World :=
  { form := w.form, trace := t ++ w.trace }

/-- The outcome with the calls `t` recorded before its own. -/
def shift (t : List Call) : Except Fault (Int × World) → Except Fault (Int × World)
  | .error e => .error e
  | .ok (res, w) => .ok (res, w.shift t)

/-- The request named for a click outside the rows of the field sub-window: by the kind of
click (single before double before triple), the previous-direction request when the click is
above and the next-direction request when it is below. -/
def click_request (E : Env) (above : Bool) (bstate : Nat) : Int :=
  if bstate &&& E.BUTTON1_CLICKED ≠ 0 then
    (if above then E.REQ_PREV_FIELD else E.REQ_NEXT_FIELD)
  else if bstate &&& E.BUTTON1_DOUBLE_CLICKED ≠ 0 then
    (if above then E.REQ_PREV_PAGE else E.REQ_NEXT_PAGE)
  else
    (if above then E.REQ_FIRST_FIELD else E.REQ_LAST_FIELD)

/-- The event `getmouse` delivers is a button-1 click: single, double or triple. -/
def button1_click (E : Env) : Prop :=
  E.getmouse.bstate &&& (E.BUTTON1_CLICKED ||| E.BUTTON1_DOUBLE_CLICKED |||
      E.BUTTON1_TRIPLE_CLICKED) ≠ 0

instance (E : Env) : Decidable (button1_click E) := by
  unfold button1_click; infer_instance

/-- The event `getmouse` delivers lies inside the window of the form `f`, and `mouse_trafo`
takes it to row `ry`. -/
def lands_in_window (E : Env) (f : FORM) (ry : Int) : Prop :=
  E.wenclose (form_win E f) E.getmouse.y E.getmouse.x = true ∧
    ∃ rx, E.mouse_trafo E.getmouse.y E.getmouse.x = some (ry, rx)

/-- The event `getmouse` delivers lies inside the window of the form `f` at a row of the
field sub-window, lies inside the sub-window, and `wmouse_trafo` takes it to the local
coordinates `(ry, rx)`. -/
def lands_in_sub (E : Env) (f : FORM) (ry rx : Int) : Prop :=
  ∃ ry0, lands_in_window E f ry0 ∧
    (form_sub E f)._begy ≤ ry0 ∧ ry0 ≤ (form_sub E f)._begy + (form_sub E f)._maxy ∧
    E.wenclose (form_sub E f) E.getmouse.y E.getmouse.x = true ∧
    E.wmouse_trafo (form_sub E f) E.getmouse.y E.getmouse.x = some (ry, rx)

/-- Field `i` of the array is selectable and encloses the point `(ry, rx)`: the test of
lines 187-188. -/
def is_hit (E : Env) (field : Int → Option FIELD) (ry rx i : Int) : Prop :=
  E.Field_Is_Selectable (field i) = true ∧ E.Field_encloses (field i) ry rx = E.E_OK

instance (E : Env) (field : Int → Option FIELD) (ry rx i : Int) :
    Decidable (is_hit E field ry rx i) := by
  unfold is_hit; infer_instance

/-- The row `ry` lies above (`above = true`) or below (`above = false`) the rows
`_begy .. _begy + _maxy` of the window `sub`. -/
def outside_rows (sub : WINDOW) (above : Bool) (ry : Int) : Prop :=
  if above then ry < sub._begy else ry > sub._begy + sub._maxy

instance (sub : WINDOW) (above : Bool) (ry : Int) : Decidable (outside_rows sub above ry) := by
  unfold outside_rows; infer_instance

/-- The six requests the mouse branch can pass to the recursive call. -/
def scroll_requests (E : Env) : List Int :=
  [E.REQ_PREV_FIELD, E.REQ_PREV_PAGE, E.REQ_FIRST_FIELD,
   E.REQ_NEXT_FIELD, E.REQ_NEXT_PAGE, E.REQ_LAST_FIELD]

/-- The precondition that fails first, in the stated order, and its result code: a null
form, no connected fields, the in-driver flag set, the form not posted. `none` when all four
hold. The sentinel, which is tested between the second and the third, is left to the
caller. -/
def precondition_failure (E : Env) (form : FormPtr) (f : FORM) : Option Int :=
  match form with
  | .NULL => some E.E_BAD_ARGUMENT
  | .ptr =>
    if f.field.isNone then some E.E_NOT_CONNECTED
    else if f.status &&& E._IN_DRIVER ≠ 0 then some E.E_BAD_STATE
    else if f.status &&& E._POSTED = 0 then some E.E_NOT_POSTED
    else none

/-- The call takes the sentinel branch: the form is non-null, has connected fields, and the
symbol is the sentinel. -/
def sentinel_call (E : Env) (form : FormPtr) (f : FORM) (c : Int) : Prop :=
  form = .ptr ∧ f.field.isSome ∧ c = E.FIRST_ACTIVE_MAGIC

instance (E : Env) (form : FormPtr) (f : FORM) (c : Int) :
    Decidable (sentinel_call E form f c) := by
  unfold sentinel_call; infer_instance

/-- The two assertions of the driver hold for a form with connected fields. -/
def asserts_hold (f : FORM) : Prop :=
  f.field.isSome → f.page.isSome ∧ current_ok f = true

instance (f : FORM) : Decidable (asserts_hold f) := by
  unfold asserts_hold; infer_instance

/-- What is expected for a click at a row of the field sub-window, in the state `w1` that has
the `getmouse` call recorded: the scan of the fields of the current page when the click is
inside the sub-window and `wmouse_trafo` gives local coordinates, else nothing, the result
being `E_REQUEST_DENIED`. No request takes part in it. -/
def field_hit_test (E : Env) (field : Int → Option FIELD) (page : Int → PAGE) (w1 : World) :
    Int × World :=
  if E.wenclose (form_sub E w1.form) E.getmouse.y E.getmouse.x then
    match E.wmouse_trafo (form_sub E w1.form) E.getmouse.y E.getmouse.x with
    | none => (E.E_REQUEST_DENIED, w1)
    | some (ry, rx) =>
      hit_loop E field E.getmouse.bstate ry rx E.E_REQUEST_DENIED
        ((page w1.form.curpage).pmax - (page w1.form.curpage).pmin + 1).toNat
        (page w1.form.curpage).pmin w1
  else (E.E_REQUEST_DENIED, w1)

/-- The sample environment with a double click and a set-current-field operation that rejects
every field with the code -13 (`E_INVALID_FIELD`). -/
def sample_env_rejecting : Env :=
  { sample_env_double with _nc_Set_Current_Field := fun f _ => (-13, f) }

/-- Every data-entry call recorded in `t` was made with a symbol that satisfies `Q`. -/
def data_entries (Q : Int → Prop) (t : List Call) : Prop :=
  ∀ c, Call.data_entry c ∈ t → Q c

/-! ## Lemmas -/

/-- The masked value of line 117 is not negative, so storing it in a `size_t` keeps it. -/
theorem method_of_cast (E : Env) (BI : Binding_Info) :
    (method_of E BI : Int) = Int.land (BI.keycode >>> E.ID_Shft) 0xffff := by
  have h : ∀ x : Int, 0 ≤ Int.land x ((0xffff : Nat) : Int) := by
    intro x
    cases x with
    | ofNat n => exact Int.ofNat_nonneg _
    | negSucc n => exact Int.ofNat_nonneg _
  exact Int.toNat_of_nonneg (h _)

/-- The outcome of the driver for a dispatchable form and a symbol other than the sentinel:
the classification followed by the refresh. -/
theorem form_driver_dispatch (E : Env) (fuel : Nat) (status c : Int) (w : World)
    (field : Int → Option FIELD) (hfield : w.form.field = some field)
    (hready : dispatchable E w.form) (hc : c ≠ E.FIRST_ACTIVE_MAGIC) :
    form_driver E (fuel + 1) .ptr status c w =
      finish E (dispatch E (fun c w => form_driver E fuel .ptr E.recursive_status c w)
        field status c w) := by
  obtain ⟨-, hpage, hcur, hdrv, hpost⟩ := hready
  obtain ⟨page, hp⟩ := Option.isSome_iff_exists.mp hpage
  simp [form_driver, hfield, hp, hc, hcur, hdrv, hpost]

theorem lookup_of_bound (E : Env) (c : Int) (h : bound E c) :
    lookup E c = some (E.bindings (c - E.MIN_FORM_COMMAND)) := by
  unfold bound at h
  simp [lookup, h]

theorem lookup_of_not_bound (E : Env) (c : Int) (h : ¬ bound E c) : lookup E c = none := by
  unfold bound at h
  simp only [lookup, ge_iff_le]
  rw [if_neg h]

/-- The request branch for a well-formed entry makes the expected call and nothing else. -/
theorem request_well_formed (E : Env) (BI : Binding_Info) (w : World) (cmd : Nat)
    (hid : method_of E BI < 9) (hcmd : BI.cmd = some cmd) :
    ∃ call, expected_call (method_of E BI) cmd = some call ∧
      request E BI w =
        ((E.perform call w.form).1,
          { form := (E.perform call w.form).2, trace := w.trace ++ [call] }) := by
  unfold request
  generalize method_of E BI = m at hid ⊢
  interval_cases m <;>
    simp [expected_call, nMethods, Generic_Methods, hcmd, World.run, Env.perform]

theorem shift_shift (t u : List Call) (o : Except Fault (Int × World)) :
    shift t (shift u o) = shift (t ++ u) o := by
  rcases o with e | ⟨res, w⟩ <;> simp [shift, World.shift]

theorem run_shift (t : List Call) (w : World) (call : Call) (fn : FORM → Int × FORM) :
    (w.shift t).run call fn = ((w.run call fn).1, (w.run call fn).2.shift t) := by
  simp [World.run, World.shift]

theorem request_shift (E : Env) (BI : Binding_Info) (t : List Call) (w : World) :
    request E BI (w.shift t) = ((request E BI w).1, (request E BI w).2.shift t) := by
  unfold request
  simp only [run_shift]
  split_ifs
  · rfl
  · split
    · rfl
    · split <;> rfl

theorem select_field_shift (E : Env) (bstate : Nat) (fld : Option FIELD) (t : List Call)
    (w : World) :
    select_field E bstate fld (w.shift t) =
      ((select_field E bstate fld w).1, (select_field E bstate fld w).2.shift t) := by
  unfold select_field
  simp only [run_shift]
  split_ifs <;> simp [run_shift]

theorem hit_loop_shift (E : Env) (field : Int → Option FIELD) (bstate : Nat) (ry rx res : Int)
    (t : List Call) (k : Nat) (i : Int) (w : World) :
    hit_loop E field bstate ry rx res k i (w.shift t) =
      ((hit_loop E field bstate ry rx res k i w).1,
        (hit_loop E field bstate ry rx res k i w).2.shift t) := by
  induction k generalizing i with
  | zero => simp [hit_loop]
  | succ k ih =>
    simp only [hit_loop]
    split_ifs
    · exact select_field_shift E bstate _ t w
    · exact ih (i + 1)

theorem mouse_shift (E : Env) (self : Int → World → Except Fault (Int × World))
    (field : Int → Option FIELD) (t : List Call) (w : World)
    (hself : ∀ c u, self c (World.shift t u) = shift t (self c u)) :
    mouse E self field (w.shift t) = shift t (mouse E self field w) := by
  have hw1 : ({ form := w.form, trace := t ++ w.trace ++ [Call.getmouse] } : World) =
      World.shift t { form := w.form, trace := w.trace ++ [Call.getmouse] } := by
    simp [World.shift]
  unfold mouse
  simp only [World.shift, hw1]
  split_ifs <;> (try split) <;> (try split_ifs) <;> (try split) <;> (try split) <;>
    first
    | rfl
    | exact hself _ { form := w.form, trace := w.trace ++ [Call.getmouse] }
    | exact congrArg Except.ok
        (hit_loop_shift E field _ _ _ _ t _ _ { form := w.form, trace := w.trace ++ [Call.getmouse] })

theorem dispatch_shift (E : Env) (self : Int → World → Except Fault (Int × World))
    (field : Int → Option FIELD) (status c : Int) (t : List Call) (w : World)
    (hself : ∀ c u, self c (World.shift t u) = shift t (self c u)) :
    dispatch E self field status c (w.shift t) = shift t (dispatch E self field status c w) := by
  unfold dispatch
  split
  · simp [request_shift, shift]
  · split_ifs
    · exact mouse_shift E self field t w hself
    · simp [run_shift, shift]
    · rfl

theorem finish_shift (E : Env) (t : List Call) (o : Except Fault (Int × World)) :
    finish E (shift t o) = shift t (finish E o) := by
  rcases o with e | ⟨res, w⟩ <;> simp [finish, shift, World.shift]

/-- The calls already recorded do not influence a run: they are kept in front of the calls
the run records, and the result code and the form are the same. -/
theorem form_driver_shift (E : Env) (fuel : Nat) (form : FormPtr) (status c : Int)
    (t : List Call) (w : World) :
    form_driver E fuel form status c (w.shift t) = shift t (form_driver E fuel form status c w) := by
  induction fuel generalizing form status c w with
  | zero => simp [form_driver, shift]
  | succ fuel ih =>
    cases form with
    | NULL => simp [form_driver, shift]
    | ptr =>
      simp only [form_driver]
      have hform : (w.shift t).form = w.form := rfl
      rw [hform]
      split
      · rfl
      · split_ifs
        · rfl
        · simp [shift, World.shift]
        · rfl
        · rfl
        · rfl
        · rw [dispatch_shift E _ _ status c t w (fun c u => ih .ptr E.recursive_status c u),
            finish_shift]

theorem result_code_shift (t : List Call) (o : Except Fault (Int × World)) :
    result_code (shift t o) = result_code o := by
  rcases o with e | ⟨res, w⟩ <;> rfl

theorem or_eq_zero_parts (a b : Nat) (h : a ||| b = 0) : a = 0 ∧ b = 0 := by
  constructor
  · apply Nat.eq_of_testBit_eq
    intro i
    have hi := congrArg (fun n => n.testBit i) h
    simp at hi ⊢
    exact hi.1
  · apply Nat.eq_of_testBit_eq
    intro i
    have hi := congrArg (fun n => n.testBit i) h
    simp at hi ⊢
    exact hi.2

/-- A bit set that meets the three-button mask but neither of its first two parts meets the
third. -/
theorem third_bit_of_mask (x a b c : Nat) (h : x &&& (a ||| b ||| c) ≠ 0)
    (ha : x &&& a = 0) (hb : x &&& b = 0) : x &&& c ≠ 0 := by
  intro hc
  apply h
  rw [Nat.and_or_distrib_left, Nat.and_or_distrib_left, ha, hb, hc]
  rfl

/-- A bit set that meets the second part of the three-button mask meets the mask. -/
theorem mask_of_second_bit (x a b c : Nat) (hb : x &&& b ≠ 0) :
    x &&& (a ||| b ||| c) ≠ 0 := by
  intro h
  rw [Nat.and_or_distrib_left, Nat.and_or_distrib_left] at h
  exact hb (or_eq_zero_parts _ _ (or_eq_zero_parts _ _ h).1).2

/-- A click above or below the rows of the sub-window: the mouse branch is the recursive call
with the request of `click_request`, in the state that has the `getmouse` call recorded. -/
theorem mouse_outside_rows (E : Env) (self : Int → World → Except Fault (Int × World))
    (field : Int → Option FIELD) (w : World) (ry : Int) (above : Bool)
    (hbutton : button1_click E) (hland : lands_in_window E w.form ry)
    (hmaxy : 0 ≤ (form_sub E w.form)._maxy)
    (hrow : outside_rows (form_sub E w.form) above ry) :
    mouse E self field w =
      self (click_request E above E.getmouse.bstate)
        { form := w.form, trace := w.trace ++ [.getmouse] } := by
  obtain ⟨hwin, rx, htrafo⟩ := hland
  unfold button1_click at hbutton
  have h3 := third_bit_of_mask _ _ _ _ hbutton
  unfold mouse click_request
  simp only [hbutton, hwin, htrafo, ne_eq, not_false_eq_true, and_self, if_true]
  cases above with
  | true =>
    have hlt : ry < (form_sub E w.form)._begy := by simpa [outside_rows] using hrow
    simp only [hlt, if_true]
    by_cases h1 : E.getmouse.bstate &&& E.BUTTON1_CLICKED = 0
    · by_cases h2 : E.getmouse.bstate &&& E.BUTTON1_DOUBLE_CLICKED = 0
      · simp [h1, h2, h3 h1 h2]
      · simp [h1, h2]
    · simp [h1]
  | false =>
    have hgt : ry > (form_sub E w.form)._begy + (form_sub E w.form)._maxy := by
      simpa [outside_rows] using hrow
    have hnlt : ¬ ry < (form_sub E w.form)._begy := by omega
    simp only [hnlt, hgt, if_true, if_false]
    by_cases h1 : E.getmouse.bstate &&& E.BUTTON1_CLICKED = 0
    · by_cases h2 : E.getmouse.bstate &&& E.BUTTON1_DOUBLE_CLICKED = 0
      · simp [h1, h2, h3 h1 h2]
      · simp [h1, h2]
    · simp [h1]

/-- A symbol other than the mouse symbol never reaches a recursive call: the driver returns
for every positive budget, with the same outcome. -/
theorem form_driver_fuel (E : Env) (fuel : Nat) (status c : Int) (w : World)
    (hc : c ≠ E.KEY_MOUSE) :
    form_driver E (fuel + 1) .ptr status c w = form_driver E 1 .ptr status c w := by
  have hc2 : ¬ E.KEY_MOUSE = c := fun h => hc h.symm
  simp [form_driver, dispatch, hc2]

/-- A dispatchable form and a symbol other than the mouse symbol: the driver returns a
result code. -/
theorem form_driver_returns (E : Env) (fuel : Nat) (status c : Int) (w : World)
    (hready : dispatchable E w.form) (hc : c ≠ E.KEY_MOUSE) :
    ∃ res, result_code (form_driver E (fuel + 1) .ptr status c w) = some res := by
  have hc2 : ¬ E.KEY_MOUSE = c := fun h => hc h.symm
  obtain ⟨hfield, hpage, hcur, hdrv, hpost⟩ := hready
  obtain ⟨field, hf⟩ := Option.isSome_iff_exists.mp hfield
  obtain ⟨page, hp⟩ := Option.isSome_iff_exists.mp hpage
  by_cases hm : c = E.FIRST_ACTIVE_MAGIC
  · exact ⟨E.E_OK, by simp [form_driver, hf, hp, hm, result_code]⟩
  · simp only [form_driver, hf, hp, hm, hcur, hdrv, hpost, dispatch, hc2]
    cases lookup E c with
    | some BI => exact ⟨_, by simp [finish, result_code]; rfl⟩
    | none =>
      by_cases hs : status = E.KEY_CODE_YES
      · exact ⟨_, by simp [hs, finish, result_code]; rfl⟩
      · exact ⟨_, by simp [hs, finish, result_code]; rfl⟩

/-- A bound request is dispatched the same way whatever the input mode is. -/
theorem form_driver_bound_status (E : Env) (fuel : Nat) (form : FormPtr) (s1 s2 c : Int)
    (w : World) (hbound : bound E c) :
    form_driver E fuel form s1 c w = form_driver E fuel form s2 c w := by
  cases fuel with
  | zero => rfl
  | succ fuel => simp only [form_driver, dispatch, lookup_of_bound E c hbound]

/-- A click inside the field sub-window: the mouse branch is the scan of the fields of the
current page, in the state that has the `getmouse` call recorded. -/
theorem mouse_in_sub (E : Env) (self : Int → World → Except Fault (Int × World))
    (field : Int → Option FIELD) (page : Int → PAGE) (w : World) (ry rx : Int)
    (hpage : w.form.page = some page)
    (hbutton : button1_click E) (hland : lands_in_sub E w.form ry rx) :
    mouse E self field w =
      .ok (hit_loop E field E.getmouse.bstate ry rx E.E_REQUEST_DENIED
        ((page w.form.curpage).pmax - (page w.form.curpage).pmin + 1).toNat
        (page w.form.curpage).pmin { form := w.form, trace := w.trace ++ [.getmouse] }) := by
  obtain ⟨ry0, ⟨hwin, rx0, htrafo⟩, hlo, hhi, hsub, hlocal⟩ := hland
  unfold button1_click at hbutton
  have h1 : ¬ ry0 < (form_sub E w.form)._begy := by omega
  have h2 : ¬ ry0 > (form_sub E w.form)._begy + (form_sub E w.form)._maxy := by omega
  unfold mouse
  simp only [hbutton, hwin, htrafo, ne_eq, not_false_eq_true, and_self, if_true, h1, h2,
    if_false, hsub, hlocal, hpage]

/-- No field among the `k` fields from index `i` on is hit: the scan leaves `res` and the
state as they are. -/
theorem hit_loop_miss (E : Env) (field : Int → Option FIELD) (bstate : Nat) (ry rx res : Int)
    (k : Nat) (i : Int) (w : World)
    (hmiss : ∀ j, i ≤ j → j < i + k → ¬ is_hit E field ry rx j) :
    hit_loop E field bstate ry rx res k i w = (res, w) := by
  induction k generalizing i with
  | zero => rfl
  | succ k ih =>
    have hi : ¬ is_hit E field ry rx i := hmiss i (le_refl i) (by push_cast; omega)
    unfold is_hit at hi
    simp only [hit_loop, hi, if_false]
    exact ih (i + 1) (fun j h1 h2 => hmiss j (by omega) (by push_cast; omega))

/-- Field `h` is the first field hit among the `k` fields from index `i` on: the scan is the
selection of field `h`. -/
theorem hit_loop_first (E : Env) (field : Int → Option FIELD) (bstate : Nat) (ry rx res : Int)
    (k : Nat) (i h : Int) (w : World)
    (hlo : i ≤ h) (hhi : h < i + k) (hhit : is_hit E field ry rx h)
    (hmiss : ∀ j, i ≤ j → j < h → ¬ is_hit E field ry rx j) :
    hit_loop E field bstate ry rx res k i w = select_field E bstate (field h) w := by
  induction k generalizing i with
  | zero => exfalso; simp at hhi; omega
  | succ k ih =>
    by_cases hih : i = h
    · subst hih
      unfold is_hit at hhit
      simp only [hit_loop, hhit, and_self, if_true]
    · have hi : ¬ is_hit E field ry rx i := hmiss i (le_refl i) (by omega)
      unfold is_hit at hi
      simp only [hit_loop, hi, if_false]
      exact ih (i + 1) (by omega) (by push_cast at hhi ⊢; omega)
        (fun j h1 h2 => hmiss j (by omega) h2)

/-- A call that fails a precondition, and is not the sentinel call, returns the code of the
first failing precondition and leaves the state as it was. -/
theorem form_driver_precondition_failure (E : Env) (fuel : Nat) (form : FormPtr)
    (status c : Int) (w : World) (code : Int)
    (hfail : precondition_failure E form w.form = some code)
    (hassert : asserts_hold w.form)
    (hsentinel : ¬ sentinel_call E form w.form c) :
    form_driver E (fuel + 1) form status c w = .ok (code, w) := by
  cases form with
  | NULL =>
    simp only [precondition_failure, Option.some.injEq] at hfail
    simp [form_driver, hfail]
  | ptr =>
    cases hf : w.form.field with
    | none =>
      simp only [precondition_failure, hf, Option.isNone_none, if_true,
        Option.some.injEq] at hfail
      simp [form_driver, hf, hfail]
    | some field =>
      have hc : c ≠ E.FIRST_ACTIVE_MAGIC := by
        intro h
        exact hsentinel ⟨rfl, by simp [hf], h⟩
      obtain ⟨hpage, hcur⟩ := hassert (by simp [hf])
      obtain ⟨page, hp⟩ := Option.isSome_iff_exists.mp hpage
      simp only [precondition_failure, hf, Option.isNone_some, Bool.false_eq_true,
        if_false] at hfail
      by_cases hdrv : w.form.status &&& E._IN_DRIVER = 0
      · by_cases hpost : w.form.status &&& E._POSTED = 0
        · simp [hdrv, hpost] at hfail
          simp [form_driver, hf, hp, hc, hcur, hdrv, hpost, hfail]
        · simp [hdrv, hpost] at hfail
      · simp [hdrv] at hfail
        simp [form_driver, hf, hp, hc, hcur, hdrv, hfail]

/-- The event is no button-1 click, or lies outside the window of the form, or cannot be
transformed: the mouse branch leaves `E_REQUEST_DENIED` and calls nothing but `getmouse`. -/
theorem mouse_denied (E : Env) (self : Int → World → Except Fault (Int × World))
    (field : Int → Option FIELD) (w : World)
    (hmiss : ¬ button1_click E ∨
      E.wenclose (form_win E w.form) E.getmouse.y E.getmouse.x = false ∨
      E.mouse_trafo E.getmouse.y E.getmouse.x = none) :
    mouse E self field w =
      .ok (E.E_REQUEST_DENIED, { form := w.form, trace := w.trace ++ [.getmouse] }) := by
  unfold mouse
  unfold button1_click at hmiss
  rcases hmiss with h | h | h
  · simp [h]
  · simp [h]
  · simp only [h]
    split_ifs <;> rfl

/-- A click at a row of the field sub-window: the mouse branch is the field hit-test, and
makes no recursive call. -/
theorem mouse_inside_rows (E : Env) (self : Int → World → Except Fault (Int × World))
    (field : Int → Option FIELD) (page : Int → PAGE) (w : World) (ry : Int)
    (hpage : w.form.page = some page)
    (hbutton : button1_click E) (hland : lands_in_window E w.form ry)
    (hlo : (form_sub E w.form)._begy ≤ ry)
    (hhi : ry ≤ (form_sub E w.form)._begy + (form_sub E w.form)._maxy) :
    mouse E self field w =
      .ok (field_hit_test E field page { form := w.form, trace := w.trace ++ [.getmouse] }) := by
  obtain ⟨hwin, rx0, htrafo⟩ := hland
  unfold button1_click at hbutton
  have h1 : ¬ ry < (form_sub E w.form)._begy := by omega
  have h2 : ¬ ry > (form_sub E w.form)._begy + (form_sub E w.form)._maxy := by omega
  unfold mouse field_hit_test
  simp only [hbutton, hwin, htrafo, ne_eq, not_false_eq_true, and_self, if_true, h1, h2,
    if_false, hpage]
  split_ifs
  · split <;> rfl
  · rfl

theorem ok_of_result_code (o : Except Fault (Int × World)) (res : Int)
    (h : result_code o = some res) : ∃ w, o = .ok (res, w) := by
  rcases o with e | ⟨r, w⟩
  · simp [result_code] at h
  · simp only [result_code, Option.some.injEq] at h
    exact ⟨w, by rw [h]⟩

/-- The mouse branch returns when the recursive calls it can make return. -/
theorem mouse_returns (E : Env) (self : Int → World → Except Fault (Int × World))
    (field : Int → Option FIELD) (w : World) (hpage : w.form.page.isSome)
    (hself : ∀ c ∈ scroll_requests E,
      ∃ v, self c { form := w.form, trace := w.trace ++ [.getmouse] } = .ok v) :
    ∃ v, mouse E self field w = .ok v := by
  obtain ⟨page, hp⟩ := Option.isSome_iff_exists.mp hpage
  unfold mouse
  simp only [hp]
  split_ifs <;> (try split) <;> (try split_ifs) <;> (try split) <;>
    first
    | exact ⟨_, rfl⟩
    | exact hself _ (by simp [scroll_requests])

/-- A dispatchable form, a symbol other than the sentinel, and requests of the mouse branch
that differ from the mouse symbol: with a budget of two the driver returns a result code, and
the last thing it does is the refresh, whose form it returns. -/
theorem form_driver_total (E : Env) (fuel : Nat) (status c : Int) (w : World)
    (hready : dispatchable E w.form) (hc : c ≠ E.FIRST_ACTIVE_MAGIC)
    (hreq : ∀ r ∈ scroll_requests E, r ≠ E.KEY_MOUSE) :
    ∃ (res : Int) (w2 : World), form_driver E (fuel + 2) .ptr status c w =
      .ok (res, { form := E._nc_Refresh_Current_Field w2.form,
                  trace := w2.trace ++ [.refresh_current_field] }) := by
  obtain ⟨field, hf⟩ := Option.isSome_iff_exists.mp hready.1
  rw [form_driver_dispatch E (fuel + 1) status c w field hf hready hc]
  have hd : ∃ v, dispatch E (fun c w => form_driver E (fuel + 1) .ptr E.recursive_status c w)
      field status c w = .ok v := by
    unfold dispatch
    split
    · exact ⟨_, rfl⟩
    · split_ifs
      · refine mouse_returns E _ field w hready.2.1 (fun r hr => ?_)
        obtain ⟨res, hres⟩ := form_driver_returns E fuel E.recursive_status r
          { form := w.form, trace := w.trace ++ [.getmouse] } hready (hreq r hr)
        obtain ⟨w', hw'⟩ := ok_of_result_code _ res hres
        exact ⟨_, hw'⟩
      · exact ⟨_, rfl⟩
      · exact ⟨_, rfl⟩
  obtain ⟨⟨res, w2⟩, hv⟩ := hd
  exact ⟨res, w2, by rw [hv]; rfl⟩

/-- The same, with the calls of the run set apart from the calls recorded before it. -/
theorem form_driver_total_calls (E : Env) (fuel : Nat) (status c : Int) (w : World)
    (hready : dispatchable E w.form) (hc : c ≠ E.FIRST_ACTIVE_MAGIC)
    (hreq : ∀ r ∈ scroll_requests E, r ≠ E.KEY_MOUSE) :
    ∃ (res : Int) (g : FORM) (calls : List Call),
      form_driver E (fuel + 2) .ptr status c w =
        .ok (res, { form := E._nc_Refresh_Current_Field g,
                    trace := w.trace ++ calls ++ [.refresh_current_field] }) := by
  obtain ⟨res, w2, h⟩ := form_driver_total E fuel status c { form := w.form, trace := [] }
    hready hc hreq
  have hw : w = World.shift w.trace { form := w.form, trace := [] } := by
    simp [World.shift]
  refine ⟨res, w2.form, w2.trace, ?_⟩
  rw [hw, form_driver_shift, h]
  simp [shift, World.shift]

theorem data_entries_snoc (Q : Int → Prop) (t : List Call) (call : Call)
    (h : data_entries Q t) (hcall : ∀ c, call = .data_entry c → Q c) :
    data_entries Q (t ++ [call]) := by
  intro c hc
  rcases List.mem_append.mp hc with h1 | h1
  · exact h c h1
  · exact hcall c (List.mem_singleton.mp h1).symm

theorem request_data_entries (E : Env) (Q : Int → Prop) (BI : Binding_Info) (w : World)
    (h : data_entries Q w.trace) : data_entries Q (request E BI w).2.trace := by
  unfold request
  dsimp only
  split_ifs
  · exact h
  · split
    · exact h
    · split <;> exact data_entries_snoc Q _ _ h (fun c hc => by cases hc)

theorem select_field_data_entries (E : Env) (Q : Int → Prop) (bstate : Nat)
    (fld : Option FIELD) (w : World) (h : data_entries Q w.trace) :
    data_entries Q (select_field E bstate fld w).2.trace := by
  have h1 : data_entries Q (w.trace ++ [Call.set_current_field fld]) :=
    data_entries_snoc Q _ _ h (fun c hc => by cases hc)
  have h2 : data_entries Q (w.trace ++ [Call.set_current_field fld] ++
      [Call.position_form_cursor]) :=
    data_entries_snoc Q _ _ h1 (fun c hc => by cases hc)
  unfold select_field
  simp only [World.run]
  split_ifs <;> first | exact h1 | exact h2

theorem hit_loop_data_entries (E : Env) (Q : Int → Prop) (field : Int → Option FIELD)
    (bstate : Nat) (ry rx res : Int) (k : Nat) (i : Int) (w : World)
    (h : data_entries Q w.trace) :
    data_entries Q (hit_loop E field bstate ry rx res k i w).2.trace := by
  induction k generalizing i with
  | zero => exact h
  | succ k ih =>
    simp only [hit_loop]
    split_ifs
    · exact select_field_data_entries E Q bstate _ w h
    · exact ih (i + 1)

theorem mouse_data_entries (E : Env) (Q : Int → Prop)
    (self : Int → World → Except Fault (Int × World))
    (field : Int → Option FIELD) (w : World) (v : Int × World)
    (hself : ∀ c ∈ scroll_requests E, ∀ u v, data_entries Q u.trace → self c u = .ok v →
      data_entries Q v.2.trace)
    (h : data_entries Q w.trace) (hrun : mouse E self field w = .ok v) :
    data_entries Q v.2.trace := by
  have h1 : data_entries Q (w.trace ++ [Call.getmouse]) :=
    data_entries_snoc Q _ _ h (fun c hc => by cases hc)
  unfold mouse at hrun
  dsimp only at hrun
  revert hrun
  split_ifs <;> (try split) <;> (try split_ifs) <;> (try split) <;> (try split) <;>
    intro hrun <;>
    first
    | exact hself _ (by simp [scroll_requests]) _ _ h1 hrun
    | (cases hrun; first
        | exact h1
        | exact hit_loop_data_entries E Q field _ _ _ _ _ _ _ h1)
    | cases hrun

theorem not_bound_of_lookup_none (E : Env) (c : Int) (h : lookup E c = none) : ¬ bound E c := by
  intro hb
  rw [lookup_of_bound E c hb] at h
  cases h

theorem finish_ok (E : Env) (o : Except Fault (Int × World)) (v : Int × World)
    (h : finish E o = .ok v) :
    ∃ v0, o = .ok v0 ∧ v.2.trace = v0.2.trace ++ [.refresh_current_field] := by
  rcases o with e | ⟨res, w⟩
  · simp [finish] at h
  · simp only [finish, Except.ok.injEq] at h
    exact ⟨(res, w), rfl, by rw [← h]⟩

theorem dispatch_data_entries (E : Env) (Q : Int → Prop)
    (self : Int → World → Except Fault (Int × World))
    (field : Int → Option FIELD) (status c : Int) (w : World) (v : Int × World)
    (hc : ¬ bound E c → c ≠ E.KEY_MOUSE → Q c)
    (hself : c = E.KEY_MOUSE → ¬ bound E c → ∀ r ∈ scroll_requests E, ∀ u v,
      data_entries Q u.trace → self r u = .ok v → data_entries Q v.2.trace)
    (h : data_entries Q w.trace) (hrun : dispatch E self field status c w = .ok v) :
    data_entries Q v.2.trace := by
  unfold dispatch at hrun
  split at hrun
  · cases hrun
    exact request_data_entries E Q _ w h
  · rename_i hnone
    have hnb := not_bound_of_lookup_none E c hnone
    split_ifs at hrun with hm hs
    · exact mouse_data_entries E Q self field w v (hself hm.symm hnb) h hrun
    · cases hrun
      exact data_entries_snoc Q _ _ h (fun c2 hc2 => by
        cases hc2
        exact hc hnb (fun hcm => hm hcm.symm))
    · cases hrun
      exact h

/-- Data entry is called only with the symbol of the call, or, in a call with the mouse
symbol, with a request of the mouse branch, and in either case only when that symbol is not a
bound request and not the mouse symbol: whatever holds of such symbols holds of every
data-entry call a run records. -/
theorem form_driver_data_entries (E : Env) (Q : Int → Prop) (fuel : Nat) (form : FormPtr)
    (status c : Int) (w : World) (v : Int × World)
    (hc : ¬ bound E c → c ≠ E.KEY_MOUSE → Q c)
    (hreq : c = E.KEY_MOUSE → ¬ bound E c →
      ∀ r ∈ scroll_requests E, ¬ bound E r → r ≠ E.KEY_MOUSE → Q r)
    (h : data_entries Q w.trace)
    (hrun : form_driver E fuel form status c w = .ok v) :
    data_entries Q v.2.trace := by
  induction fuel generalizing form status c w v with
  | zero => simp [form_driver] at hrun
  | succ fuel ih =>
    cases form with
    | NULL =>
      simp only [form_driver, Except.ok.injEq] at hrun
      rw [← hrun]
      exact h
    | ptr =>
      simp only [form_driver] at hrun
      revert hrun
      split
      · intro hrun
        cases hrun
        exact h
      · split_ifs
        · intro hrun
          cases hrun
        · intro hrun
          cases hrun
          exact data_entries_snoc Q _ _ h (fun c2 hc2 => by cases hc2)
        · intro hrun
          cases hrun
        · intro hrun
          cases hrun
          exact h
        · intro hrun
          cases hrun
          exact h
        · intro hrun
          obtain ⟨v0, hv0, htr⟩ := finish_ok E _ v hrun
          rw [htr]
          refine data_entries_snoc Q _ _ ?_ (fun c2 hc2 => by cases hc2)
          refine dispatch_data_entries E Q _ _ status c w v0 hc ?_ h hv0
          intro hcm hnb r hr u v1 hu hrun1
          exact ih .ptr E.recursive_status r u v1
            (fun hnbr hner => hreq hcm hnb r hr hnbr hner)
            (fun _ _ r2 hr2 => hreq hcm hnb r2 hr2) hu hrun1

/-- The mouse symbol is dispatched the same way whatever the input mode is. -/
theorem form_driver_mouse_status (E : Env) (fuel : Nat) (form : FormPtr) (s1 s2 : Int)
    (w : World) :
    form_driver E fuel form s1 E.KEY_MOUSE w = form_driver E fuel form s2 E.KEY_MOUSE w := by
  cases fuel with
  | zero => rfl
  | succ fuel => simp only [form_driver, dispatch, if_true]

/-! ## The claims -/

/-- C1. A non-null form with connected fields that is posted and not in the driver (and
meets the two assertions), and a symbol `c` of the request range whose table entry stores `c`,
has a category id below 9 and a handler `cmd`: the driver makes exactly one handler call, the
one `expected_call` names (the handler itself for a generic category, else the overload
wrapper of the category given the handler), follows it by the refresh only, and returns the
result code of that call. The sentinel is taken not to be the symbol. -/
theorem C1_request_dispatch (E : Env) (fuel : Nat) (status c : Int) (w : World) (cmd : Nat)
    (hready : dispatchable E w.form) (hmagic : c ≠ E.FIRST_ACTIVE_MAGIC)
    (hbound : bound E c)
    (hid : method_of E (E.bindings (c - E.MIN_FORM_COMMAND)) < 9)
    (hcmd : (E.bindings (c - E.MIN_FORM_COMMAND)).cmd = some cmd) :
    ∃ call, expected_call (method_of E (E.bindings (c - E.MIN_FORM_COMMAND))) cmd = some call ∧
      form_driver E (fuel + 1) .ptr status c w =
        .ok ((E.perform call w.form).1,
          { form := E._nc_Refresh_Current_Field (E.perform call w.form).2,
            trace := w.trace ++ [call, .refresh_current_field] }) := by
  obtain ⟨field, hf⟩ := Option.isSome_iff_exists.mp hready.1
  obtain ⟨call, hcall, hreq⟩ := request_well_formed E _ w cmd hid hcmd
  refine ⟨call, hcall, ?_⟩
  rw [form_driver_dispatch E fuel status c w field hf hready hmagic]
  simp [dispatch, lookup_of_bound E c hbound, hreq, finish]

/-- Witness of C1: the sample form, posted, with request 530 (entry 18, a generic intra-field
request) in the sample environment. -/
theorem C1_request_dispatch_witness :
    dispatchable sample_env (sample_form 1 none) ∧
    ∃ call, expected_call (method_of sample_env (sample_env.bindings (530 - 512))) 18
        = some call ∧
      form_driver sample_env 1 .ptr 0 530 ⟨sample_form 1 none, []⟩ =
        .ok ((sample_env.perform call (sample_form 1 none)).1,
          { form := sample_env._nc_Refresh_Current_Field
              (sample_env.perform call (sample_form 1 none)).2,
            trace := [] ++ [call, .refresh_current_field] }) :=
  ⟨by decide,
   C1_request_dispatch sample_env 0 0 530 ⟨sample_form 1 none, []⟩ 18
     (by decide) (by decide) (by decide) (by decide) (by decide)⟩

/-- C2. A non-null form with no connected fields: the driver returns `E_NOT_CONNECTED` for
every symbol (the first-active-field sentinel included), every input mode and every value of
the status bits, and leaves the state as it was. -/
theorem C2_not_connected (E : Env) (fuel : Nat) (status c : Int) (w : World)
    (hfield : w.form.field = none) :
    form_driver E (fuel + 1) .ptr status c w = .ok (E.E_NOT_CONNECTED, w) := by
  simp [form_driver, hfield]

/-- Witness of C2: the sample unconnected form, in-driver and not posted, at the sentinel. -/
theorem C2_not_connected_witness :
    (⟨sample_form_unconnected 2, []⟩ : World).form.field = none ∧
    form_driver sample_env 1 .ptr 0 sample_env.FIRST_ACTIVE_MAGIC
        ⟨sample_form_unconnected 2, []⟩ =
      .ok (sample_env.E_NOT_CONNECTED, ⟨sample_form_unconnected 2, []⟩) :=
  ⟨rfl, C2_not_connected sample_env 0 0 sample_env.FIRST_ACTIVE_MAGIC _ rfl⟩

/-- C3, at concrete inputs. A form that is not posted and a symbol other than the sentinel,
yet the result is not `E_NOT_POSTED`: the unconnected sample form yields `E_NOT_CONNECTED`, and
the connected sample form with the in-driver bit set yields `E_BAD_STATE`. -/
theorem C3_counterexample :
    ((sample_form_unconnected 0).status &&& sample_env._POSTED = 0 ∧
      (0 : Int) ≠ sample_env.FIRST_ACTIVE_MAGIC ∧
      result_code (form_driver sample_env 1 .ptr 0 0 ⟨sample_form_unconnected 0, []⟩) =
        some sample_env.E_NOT_CONNECTED ∧
      sample_env.E_NOT_CONNECTED ≠ sample_env.E_NOT_POSTED) ∧
    ((sample_form 2 none).status &&& sample_env._POSTED = 0 ∧
      result_code (form_driver sample_env 1 .ptr 0 0 ⟨sample_form 2 none, []⟩) =
        some sample_env.E_BAD_STATE ∧
      sample_env.E_BAD_STATE ≠ sample_env.E_NOT_POSTED) := by
  decide

/-- C3, amended. A non-null form with connected fields (meeting the two assertions) that is
not in the driver and not posted: for every symbol other than the sentinel and every input
mode the driver returns `E_NOT_POSTED`, and the state is left as it was. -/
theorem C3_not_posted (E : Env) (fuel : Nat) (status c : Int) (w : World)
    (hfield : w.form.field.isSome) (hpage : w.form.page.isSome)
    (hcur : current_ok w.form = true)
    (hdrv : w.form.status &&& E._IN_DRIVER = 0)
    (hpost : w.form.status &&& E._POSTED = 0)
    (hc : c ≠ E.FIRST_ACTIVE_MAGIC) :
    form_driver E (fuel + 1) .ptr status c w = .ok (E.E_NOT_POSTED, w) := by
  obtain ⟨field, hf⟩ := Option.isSome_iff_exists.mp hfield
  obtain ⟨page, hp⟩ := Option.isSome_iff_exists.mp hpage
  simp [form_driver, hf, hp, hc, hcur, hdrv, hpost]

/-- Witness of C3 as amended: the connected sample form with no status bit set. -/
theorem C3_not_posted_witness :
    form_driver sample_env 1 .ptr 0 530 ⟨sample_form 0 none, []⟩ =
      .ok (sample_env.E_NOT_POSTED, ⟨sample_form 0 none, []⟩) :=
  C3_not_posted sample_env 0 0 530 ⟨sample_form 0 none, []⟩
    (by decide) (by decide) (by decide) (by decide) (by decide) (by decide)

/-- C4, at concrete inputs. The in-driver bit is set, yet the call with the sentinel returns
`E_OK`, not `E_BAD_STATE`, records a collaborator call and moves `current` from the field of
address 12 to the field of address 10; and on the unconnected sample form the call returns
`E_NOT_CONNECTED`. -/
theorem C4_counterexample :
    ((sample_form 3 none).status &&& sample_env._IN_DRIVER ≠ 0 ∧
      result_code (form_driver sample_env 1 .ptr 0 sample_env.FIRST_ACTIVE_MAGIC
        ⟨sample_form 3 none, []⟩) = some sample_env.E_OK ∧
      sample_env.E_OK ≠ sample_env.E_BAD_STATE ∧
      (sample_form 3 none).current = some (sample_field 12) ∧
      final_current (form_driver sample_env 1 .ptr 0 sample_env.FIRST_ACTIVE_MAGIC
        ⟨sample_form 3 none, []⟩) = some (some (sample_field 10)) ∧
      final_trace (form_driver sample_env 1 .ptr 0 sample_env.FIRST_ACTIVE_MAGIC
        ⟨sample_form 3 none, []⟩) = some [.first_active_field]) ∧
    ((sample_form_unconnected 2).status &&& sample_env._IN_DRIVER ≠ 0 ∧
      result_code (form_driver sample_env 1 .ptr 0 0 ⟨sample_form_unconnected 2, []⟩) =
        some sample_env.E_NOT_CONNECTED ∧
      sample_env.E_NOT_CONNECTED ≠ sample_env.E_BAD_STATE) := by
  decide

/-- C4, amended. A non-null form with connected fields (meeting the two assertions) whose
in-driver bit is set: for every symbol other than the sentinel and every input mode the
driver returns `E_BAD_STATE` and the state is left as it was, the form unchanged and no
collaborator called. -/
theorem C4_bad_state (E : Env) (fuel : Nat) (status c : Int) (w : World)
    (hfield : w.form.field.isSome) (hpage : w.form.page.isSome)
    (hcur : current_ok w.form = true)
    (hdrv : w.form.status &&& E._IN_DRIVER ≠ 0)
    (hc : c ≠ E.FIRST_ACTIVE_MAGIC) :
    form_driver E (fuel + 1) .ptr status c w = .ok (E.E_BAD_STATE, w) := by
  obtain ⟨field, hf⟩ := Option.isSome_iff_exists.mp hfield
  obtain ⟨page, hp⟩ := Option.isSome_iff_exists.mp hpage
  simp [form_driver, hf, hp, hc, hcur, hdrv]

/-- Witness of C4 as amended: the connected sample form, posted and in the driver, with the
mouse symbol. -/
theorem C4_bad_state_witness :
    form_driver sample_env 1 .ptr 0 sample_env.KEY_MOUSE ⟨sample_form 3 none, []⟩ =
      .ok (sample_env.E_BAD_STATE, ⟨sample_form 3 none, []⟩) :=
  C4_bad_state sample_env 0 0 sample_env.KEY_MOUSE ⟨sample_form 3 none, []⟩
    (by decide) (by decide) (by decide) (by decide) (by decide)

/-- C5. A non-null form with connected fields (and, as the form invariant has it, a page
array), called with the first-active-field sentinel: the driver returns `E_OK` whatever the
status bits and the input mode are; the form it leaves is the old one with `current` replaced
by the answer of the first-active-field query, and that query is the only collaborator
called. -/
theorem C5_first_active (E : Env) (fuel : Nat) (status : Int) (w : World)
    (hfield : w.form.field.isSome) (hpage : w.form.page.isSome) :
    form_driver E (fuel + 1) .ptr status E.FIRST_ACTIVE_MAGIC w =
      .ok (E.E_OK,
        { form := { w.form with current := E._nc_First_Active_Field w.form },
          trace := w.trace ++ [.first_active_field] }) := by
  obtain ⟨field, hf⟩ := Option.isSome_iff_exists.mp hfield
  obtain ⟨page, hp⟩ := Option.isSome_iff_exists.mp hpage
  simp [form_driver, hf, hp]

/-- Witness of C5: the connected sample form, in the driver and not posted. -/
theorem C5_first_active_witness :
    form_driver sample_env 1 .ptr 0 sample_env.FIRST_ACTIVE_MAGIC ⟨sample_form 2 none, []⟩ =
      .ok (sample_env.E_OK,
        { form := { sample_form 2 none with
                    current := sample_env._nc_First_Active_Field (sample_form 2 none) },
          trace := [] ++ [.first_active_field] }) :=
  C5_first_active sample_env 0 0 ⟨sample_form 2 none, []⟩ (by decide) (by decide)

/-- C6. A posted form with connected fields that is not in the driver (and meets the two
assertions), and a symbol `c` of the request range whose table entry stores a code other than
`c`: the symbol is not treated as a request. When the input mode is literal
(`status != KEY_CODE_YES`) the only calls are data entry with `c` and the refresh, and the
result is the code data entry returned; otherwise the only call is the refresh and the result
is `E_UNKNOWN_COMMAND`. The sentinel and the mouse symbol are taken not to be the symbol. -/
theorem C6_mismatch_not_request (E : Env) (fuel : Nat) (status c : Int) (w : World)
    (hready : dispatchable E w.form)
    (hmagic : c ≠ E.FIRST_ACTIVE_MAGIC) (hmouse : c ≠ E.KEY_MOUSE)
    (_hrange : E.MIN_FORM_COMMAND ≤ c ∧ c ≤ E.MAX_FORM_COMMAND)
    (hstored : Int.land (E.bindings (c - E.MIN_FORM_COMMAND)).keycode E.Key_Mask ≠ c) :
    (status ≠ E.KEY_CODE_YES →
      form_driver E (fuel + 1) .ptr status c w =
        .ok ((E.Data_Entry w.form c).1,
          { form := E._nc_Refresh_Current_Field (E.Data_Entry w.form c).2,
            trace := w.trace ++ [.data_entry c, .refresh_current_field] })) ∧
    (status = E.KEY_CODE_YES →
      form_driver E (fuel + 1) .ptr status c w =
        .ok (E.E_UNKNOWN_COMMAND,
          { form := E._nc_Refresh_Current_Field w.form,
            trace := w.trace ++ [.refresh_current_field] })) := by
  obtain ⟨field, hf⟩ := Option.isSome_iff_exists.mp hready.1
  have hnb : ¬ bound E c := fun h => hstored h.2
  have hm2 : ¬ E.KEY_MOUSE = c := fun h => hmouse h.symm
  rw [form_driver_dispatch E fuel status c w field hf hready hmagic]
  constructor
  · intro hs
    simp [dispatch, lookup_of_not_bound E c hnb, hm2, hs, finish, World.run]
  · intro hs
    simp [dispatch, lookup_of_not_bound E c hnb, hm2, hs, finish]

/-- Witness of C6: request 542, whose entry (30) of the sample table stores 600. -/
theorem C6_mismatch_not_request_witness :
    (0 ≠ sample_env.KEY_CODE_YES →
      form_driver sample_env 1 .ptr 0 542 ⟨sample_form 1 none, []⟩ =
        .ok ((sample_env.Data_Entry (sample_form 1 none) 542).1,
          { form := sample_env._nc_Refresh_Current_Field
              (sample_env.Data_Entry (sample_form 1 none) 542).2,
            trace := [] ++ [.data_entry 542, .refresh_current_field] })) ∧
    (0 = sample_env.KEY_CODE_YES →
      form_driver sample_env 1 .ptr 0 542 ⟨sample_form 1 none, []⟩ =
        .ok (sample_env.E_UNKNOWN_COMMAND,
          { form := sample_env._nc_Refresh_Current_Field (sample_form 1 none),
            trace := [] ++ [.refresh_current_field] })) :=
  C6_mismatch_not_request sample_env 0 0 542 ⟨sample_form 1 none, []⟩
    (by decide) (by decide) (by decide) (by decide) (by decide)

/-- C7. A posted form with connected fields that is not in the driver (and meets the two
assertions), and a button-1 click inside the window of the form whose transformed row lies
above, or below, the rows of the field sub-window: the driver called with the mouse symbol
returns a result code, and it is the code the driver returns when called directly on the same
form with the request of `click_request`: `REQ_PREV_FIELD` (below: `REQ_NEXT_FIELD`) for a
single click, `REQ_PREV_PAGE` (`REQ_NEXT_PAGE`) for a double click, `REQ_FIRST_FIELD`
(`REQ_LAST_FIELD`) for a triple click. The direct call has the input mode the recursive call
receives, and any input mode at all when the request is bound; `t` is whatever was recorded
before the direct call. The mouse symbol is taken to be neither the sentinel, nor a bound
request, nor the request synthesized, and the sub-window to have `_maxy` not negative. -/
theorem C7_mouse_outside_rows (E : Env) (fuel fuel2 : Nat) (status : Int) (w : World)
    (t : List Call) (ry : Int) (above : Bool)
    (hready : dispatchable E w.form)
    (hmagic : E.KEY_MOUSE ≠ E.FIRST_ACTIVE_MAGIC)
    (hunbound : ¬ bound E E.KEY_MOUSE)
    (hreq : click_request E above E.getmouse.bstate ≠ E.KEY_MOUSE)
    (hbutton : button1_click E) (hland : lands_in_window E w.form ry)
    (hmaxy : 0 ≤ (form_sub E w.form)._maxy)
    (hrow : outside_rows (form_sub E w.form) above ry) :
    ∃ res,
      result_code (form_driver E (fuel + 2) .ptr status E.KEY_MOUSE w) = some res ∧
      result_code (form_driver E (fuel2 + 1) .ptr E.recursive_status
        (click_request E above E.getmouse.bstate) { form := w.form, trace := t }) = some res ∧
      (bound E (click_request E above E.getmouse.bstate) → ∀ status2,
        result_code (form_driver E (fuel2 + 1) .ptr status2
          (click_request E above E.getmouse.bstate) { form := w.form, trace := t }) =
          some res) := by
  obtain ⟨field, hf⟩ := Option.isSome_iff_exists.mp hready.1
  obtain ⟨res, hres⟩ := form_driver_returns E 0 E.recursive_status
    (click_request E above E.getmouse.bstate) { form := w.form, trace := [] } hready hreq
  have hdirect : ∀ (k : Nat) (u : List Call),
      result_code (form_driver E (k + 1) .ptr E.recursive_status
        (click_request E above E.getmouse.bstate) { form := w.form, trace := u }) = some res := by
    intro k u
    have hu : ({ form := w.form, trace := u } : World) =
        World.shift u { form := w.form, trace := [] } := by simp [World.shift]
    rw [form_driver_fuel E k _ _ _ hreq, hu, form_driver_shift, result_code_shift]
    exact hres
  refine ⟨res, ?_, hdirect fuel2 t, fun hb status2 => ?_⟩
  swap
  · rw [form_driver_bound_status E _ _ status2 E.recursive_status _ _ hb]
    exact hdirect fuel2 t
  rw [form_driver_dispatch E (fuel + 1) status E.KEY_MOUSE w field hf hready hmagic]
  have hmouse := mouse_outside_rows E
    (fun c w => form_driver E (fuel + 1) .ptr E.recursive_status c w) field w ry above
    hbutton hland hmaxy hrow
  simp only [dispatch, lookup_of_not_bound E _ hunbound, if_true, hmouse]
  have hinner := hdirect fuel (w.trace ++ [.getmouse])
  revert hinner
  cases form_driver E (fuel + 1) .ptr E.recursive_status
      (click_request E above E.getmouse.bstate)
      { form := w.form, trace := w.trace ++ [.getmouse] } with
  | error e => simp [result_code]
  | ok v => simp [result_code, finish]

/-- Witness of C7: the sample form with a sub-window whose rows start at 8, and the single
click of the sample environment at row 5, above them. -/
theorem C7_mouse_outside_rows_witness :
    ∃ res,
      result_code (form_driver sample_env 2 .ptr 0 sample_env.KEY_MOUSE
        ⟨sample_form 1 (some ⟨1, 8, 10⟩), []⟩) = some res ∧
      result_code (form_driver sample_env 1 .ptr sample_env.recursive_status
        (click_request sample_env true sample_env.getmouse.bstate)
        { form := (⟨sample_form 1 (some ⟨1, 8, 10⟩), []⟩ : World).form, trace := [] }) =
        some res ∧
      (bound sample_env (click_request sample_env true sample_env.getmouse.bstate) →
        ∀ status2,
        result_code (form_driver sample_env 1 .ptr status2
          (click_request sample_env true sample_env.getmouse.bstate)
          { form := (⟨sample_form 1 (some ⟨1, 8, 10⟩), []⟩ : World).form, trace := [] }) =
          some res) :=
  C7_mouse_outside_rows sample_env 0 0 0 ⟨sample_form 1 (some ⟨1, 8, 10⟩), []⟩ [] 5 true
    (by decide) (by decide) (by decide) (by decide) (by decide) ⟨by decide, 3, rfl⟩
    (by decide) (by decide)

/-- C8. A posted form with connected fields that is not in the driver (and meets the two
assertions), and a button-1 click that lands inside the field sub-window at local coordinates
`(ry, rx)`: when field `i` is the lowest index in the range `[pmin, pmax]` of the current page
whose field is selectable and encloses the point, the driver called with the mouse symbol
passes field `i`, and no other field, to the set-current-field operation (which is followed by
the cursor positioning when it succeeds, and by the refresh); and when that operation
succeeds, the current field the call leaves is field `i`. The last part rests on the contracts
of the collaborators: a successful set-current-field makes its argument current, and cursor
positioning and refresh do not change the current field. -/
theorem C8_mouse_selects_first_hit (E : Env) (fuel : Nat) (status : Int) (w : World)
    (field : Int → Option FIELD) (page : Int → PAGE) (ry rx i : Int)
    (hready : dispatchable E w.form)
    (hfield : w.form.field = some field) (hpage : w.form.page = some page)
    (hmagic : E.KEY_MOUSE ≠ E.FIRST_ACTIVE_MAGIC) (hunbound : ¬ bound E E.KEY_MOUSE)
    (hbutton : button1_click E) (hland : lands_in_sub E w.form ry rx)
    (hlo : (page w.form.curpage).pmin ≤ i) (hhi : i ≤ (page w.form.curpage).pmax)
    (hhit : is_hit E field ry rx i)
    (hfirst : ∀ j, (page w.form.curpage).pmin ≤ j → j < i → ¬ is_hit E field ry rx j)
    (hset : ∀ f fld, (E._nc_Set_Current_Field f fld).1 = E.E_OK →
      (E._nc_Set_Current_Field f fld).2.current = fld)
    (hpos : ∀ f, (E._nc_Position_Form_Cursor f).2.current = f.current)
    (href : ∀ f, (E._nc_Refresh_Current_Field f).current = f.current) :
    form_driver E (fuel + 1) .ptr status E.KEY_MOUSE w =
        finish E (.ok (select_field E E.getmouse.bstate (field i)
          { form := w.form, trace := w.trace ++ [.getmouse] })) ∧
    final_trace (form_driver E (fuel + 1) .ptr status E.KEY_MOUSE w) =
        some (w.trace ++ [.getmouse, .set_current_field (field i)] ++
          if (E._nc_Set_Current_Field w.form (field i)).1 = E.E_OK then
            [.position_form_cursor, .refresh_current_field]
          else [.refresh_current_field]) ∧
    ((E._nc_Set_Current_Field w.form (field i)).1 = E.E_OK →
      final_current (form_driver E (fuel + 1) .ptr status E.KEY_MOUSE w) = some (field i)) := by
  have hrun : form_driver E (fuel + 1) .ptr status E.KEY_MOUSE w =
      finish E (.ok (select_field E E.getmouse.bstate (field i)
        { form := w.form, trace := w.trace ++ [.getmouse] })) := by
    rw [form_driver_dispatch E fuel status E.KEY_MOUSE w field hfield hready hmagic]
    simp only [dispatch, lookup_of_not_bound E _ hunbound, if_true]
    rw [mouse_in_sub E _ field page w ry rx hpage hbutton hland,
      hit_loop_first E field _ ry rx _ _ _ i _ hlo (by omega) hhit hfirst]
  refine ⟨hrun, ?_, ?_⟩
  · rw [hrun]
    unfold select_field
    by_cases hs : (E._nc_Set_Current_Field w.form (field i)).1 = E.E_OK
    · simp only [World.run, hs, if_true]
      split_ifs <;> simp [finish, final_trace]
    · simp only [World.run, hs, if_false]
      split_ifs <;> simp_all [finish, final_trace]
  · intro hs
    rw [hrun]
    unfold select_field
    simp only [World.run, hs, if_true]
    split_ifs <;> simp [finish, final_current, href, hpos, hset _ _ hs]

/-- Witness of C8: the sample form with a sub-window whose rows start at -6; the sample click
at row 5 is local row 11, the row of the field of index 1, the first selectable one. -/
theorem C8_mouse_selects_first_hit_witness :
    form_driver sample_env 1 .ptr 0 sample_env.KEY_MOUSE
        ⟨sample_form 1 (some ⟨1, -6, 20⟩), []⟩ =
      finish sample_env (.ok (select_field sample_env sample_env.getmouse.bstate
        (some (sample_field 11))
        { form := sample_form 1 (some ⟨1, -6, 20⟩), trace := [] ++ [.getmouse] })) ∧
    final_trace (form_driver sample_env 1 .ptr 0 sample_env.KEY_MOUSE
        ⟨sample_form 1 (some ⟨1, -6, 20⟩), []⟩) =
      some ([] ++ [.getmouse, .set_current_field (some (sample_field 11))] ++
        if (sample_env._nc_Set_Current_Field (sample_form 1 (some ⟨1, -6, 20⟩))
            (some (sample_field 11))).1 = sample_env.E_OK then
          [.position_form_cursor, .refresh_current_field]
        else [.refresh_current_field]) ∧
    ((sample_env._nc_Set_Current_Field (sample_form 1 (some ⟨1, -6, 20⟩))
        (some (sample_field 11))).1 = sample_env.E_OK →
      final_current (form_driver sample_env 1 .ptr 0 sample_env.KEY_MOUSE
        ⟨sample_form 1 (some ⟨1, -6, 20⟩), []⟩) = some (some (sample_field 11))) :=
  C8_mouse_selects_first_hit sample_env 0 0 ⟨sample_form 1 (some ⟨1, -6, 20⟩), []⟩
    (fun i => if 0 ≤ i ∧ i < 5 then some (sample_field (10 + i.toNat)) else none)
    (fun _ => { pmin := 0, pmax := 4 }) 11 3 1
    (by decide) rfl rfl (by decide) (by decide) (by decide)
    ⟨5, ⟨by decide, 3, rfl⟩, by decide, by decide, by decide, rfl⟩
    (by decide) (by decide) (by decide)
    (fun j h1 h2 => by
      have hj : j = 0 := by
        have h3 : (0 : Int) ≤ j := h1
        omega
      subst hj
      decide)
    (fun _ _ _ => rfl) (fun _ => rfl) (fun _ => rfl)

/-- C9. A posted form with connected fields that is not in the driver (and meets the two
assertions), and a button-1 click that lands inside the field sub-window at local coordinates
`(ry, rx)`: when no field with index in the range `[pmin, pmax]` of the current page is both
selectable and enclosing the point, the driver called with the mouse symbol returns
`E_REQUEST_DENIED`; the only calls are `getmouse` and the refresh (set-current-field is not
called), the form is handed to the refresh as it was, and, refresh keeping the current field,
the current field is unchanged. -/
theorem C9_mouse_no_hit (E : Env) (fuel : Nat) (status : Int) (w : World)
    (field : Int → Option FIELD) (page : Int → PAGE) (ry rx : Int)
    (hready : dispatchable E w.form)
    (hfield : w.form.field = some field) (hpage : w.form.page = some page)
    (hmagic : E.KEY_MOUSE ≠ E.FIRST_ACTIVE_MAGIC) (hunbound : ¬ bound E E.KEY_MOUSE)
    (hbutton : button1_click E) (hland : lands_in_sub E w.form ry rx)
    (hmiss : ∀ j, (page w.form.curpage).pmin ≤ j → j ≤ (page w.form.curpage).pmax →
      ¬ is_hit E field ry rx j)
    (href : ∀ f, (E._nc_Refresh_Current_Field f).current = f.current) :
    form_driver E (fuel + 1) .ptr status E.KEY_MOUSE w =
        .ok (E.E_REQUEST_DENIED,
          { form := E._nc_Refresh_Current_Field w.form,
            trace := w.trace ++ [.getmouse, .refresh_current_field] }) ∧
    final_current (form_driver E (fuel + 1) .ptr status E.KEY_MOUSE w) =
        some w.form.current := by
  have hrun : form_driver E (fuel + 1) .ptr status E.KEY_MOUSE w =
      .ok (E.E_REQUEST_DENIED,
        { form := E._nc_Refresh_Current_Field w.form,
          trace := w.trace ++ [.getmouse, .refresh_current_field] }) := by
    rw [form_driver_dispatch E fuel status E.KEY_MOUSE w field hfield hready hmagic]
    simp only [dispatch, lookup_of_not_bound E _ hunbound, if_true]
    rw [mouse_in_sub E _ field page w ry rx hpage hbutton hland,
      hit_loop_miss E field _ ry rx _ _ _ _ (fun j h1 h2 => hmiss j h1 (by omega))]
    simp [finish]
  refine ⟨hrun, ?_⟩
  rw [hrun]
  simp [final_current, href]

/-- Witness of C9: the sample form with a sub-window whose rows start at 5; the sample click
at row 5 is local row 0, where no field lies. -/
theorem C9_mouse_no_hit_witness :
    form_driver sample_env 1 .ptr 0 sample_env.KEY_MOUSE
        ⟨sample_form 1 (some ⟨1, 5, 10⟩), []⟩ =
      .ok (sample_env.E_REQUEST_DENIED,
        { form := sample_env._nc_Refresh_Current_Field (sample_form 1 (some ⟨1, 5, 10⟩)),
          trace := [] ++ [.getmouse, .refresh_current_field] }) ∧
    final_current (form_driver sample_env 1 .ptr 0 sample_env.KEY_MOUSE
        ⟨sample_form 1 (some ⟨1, 5, 10⟩), []⟩) =
      some (sample_form 1 (some ⟨1, 5, 10⟩)).current :=
  C9_mouse_no_hit sample_env 0 0 ⟨sample_form 1 (some ⟨1, 5, 10⟩), []⟩
    (fun i => if 0 ≤ i ∧ i < 5 then some (sample_field (10 + i.toNat)) else none)
    (fun _ => { pmin := 0, pmax := 4 }) 0 3
    (by decide) rfl rfl (by decide) (by decide) (by decide)
    ⟨5, ⟨by decide, 3, rfl⟩, by decide, by decide, by decide, rfl⟩
    (fun j h1 h2 => by
      have h3 : (0 : Int) ≤ j := h1
      have h4 : j ≤ 4 := h2
      interval_cases j <;> decide)
    (fun _ => rfl)

/-- C10. A posted form with connected fields that is not in the driver (and meets the two
assertions), and a click whose button state has the button-1 double-click bit set and which
lands inside the field sub-window on field `i`, the lowest index of the current page whose
field is selectable and encloses the point: when setting the current field and placing the
cursor both return `E_OK`, the driver called with the mouse symbol returns
`E_UNKNOWN_COMMAND`, which is not `E_OK`, and the current field the call leaves is field `i`
(by the contracts of the collaborators, as in C8). -/
theorem C10_double_click_on_field (E : Env) (fuel : Nat) (status : Int) (w : World)
    (field : Int → Option FIELD) (page : Int → PAGE) (ry rx i : Int)
    (hready : dispatchable E w.form)
    (hfield : w.form.field = some field) (hpage : w.form.page = some page)
    (hmagic : E.KEY_MOUSE ≠ E.FIRST_ACTIVE_MAGIC) (hunbound : ¬ bound E E.KEY_MOUSE)
    (hne : E.E_UNKNOWN_COMMAND ≠ E.E_OK)
    (hdouble : E.getmouse.bstate &&& E.BUTTON1_DOUBLE_CLICKED ≠ 0)
    (hland : lands_in_sub E w.form ry rx)
    (hlo : (page w.form.curpage).pmin ≤ i) (hhi : i ≤ (page w.form.curpage).pmax)
    (hhit : is_hit E field ry rx i)
    (hfirst : ∀ j, (page w.form.curpage).pmin ≤ j → j < i → ¬ is_hit E field ry rx j)
    (hsetok : (E._nc_Set_Current_Field w.form (field i)).1 = E.E_OK)
    (hposok : (E._nc_Position_Form_Cursor
      (E._nc_Set_Current_Field w.form (field i)).2).1 = E.E_OK)
    (hset : ∀ f fld, (E._nc_Set_Current_Field f fld).1 = E.E_OK →
      (E._nc_Set_Current_Field f fld).2.current = fld)
    (hpos : ∀ f, (E._nc_Position_Form_Cursor f).2.current = f.current)
    (href : ∀ f, (E._nc_Refresh_Current_Field f).current = f.current) :
    result_code (form_driver E (fuel + 1) .ptr status E.KEY_MOUSE w) =
        some E.E_UNKNOWN_COMMAND ∧
    result_code (form_driver E (fuel + 1) .ptr status E.KEY_MOUSE w) ≠ some E.E_OK ∧
    final_current (form_driver E (fuel + 1) .ptr status E.KEY_MOUSE w) = some (field i) := by
  have hbutton : button1_click E := mask_of_second_bit _ _ _ _ hdouble
  have hrun : form_driver E (fuel + 1) .ptr status E.KEY_MOUSE w =
      finish E (.ok (select_field E E.getmouse.bstate (field i)
        { form := w.form, trace := w.trace ++ [.getmouse] })) := by
    rw [form_driver_dispatch E fuel status E.KEY_MOUSE w field hfield hready hmagic]
    simp only [dispatch, lookup_of_not_bound E _ hunbound, if_true]
    rw [mouse_in_sub E _ field page w ry rx hpage hbutton hland,
      hit_loop_first E field _ ry rx _ _ _ i _ hlo (by omega) hhit hfirst]
  have hcode : result_code (form_driver E (fuel + 1) .ptr status E.KEY_MOUSE w) =
      some E.E_UNKNOWN_COMMAND := by
    rw [hrun]
    simp [select_field, World.run, hsetok, hposok, hdouble, finish, result_code]
  refine ⟨hcode, ?_, ?_⟩
  · rw [hcode]
    intro h
    exact hne (Option.some.inj h)
  · rw [hrun]
    simp [select_field, World.run, hsetok, hposok, hdouble, finish, final_current, href, hpos,
      hset _ _ hsetok]

/-- Witness of C10: as for C8, with the double click of `sample_env_double`. -/
theorem C10_double_click_on_field_witness :
    result_code (form_driver sample_env_double 1 .ptr 0 sample_env_double.KEY_MOUSE
        ⟨sample_form 1 (some ⟨1, -6, 20⟩), []⟩) = some sample_env_double.E_UNKNOWN_COMMAND ∧
    result_code (form_driver sample_env_double 1 .ptr 0 sample_env_double.KEY_MOUSE
        ⟨sample_form 1 (some ⟨1, -6, 20⟩), []⟩) ≠ some sample_env_double.E_OK ∧
    final_current (form_driver sample_env_double 1 .ptr 0 sample_env_double.KEY_MOUSE
        ⟨sample_form 1 (some ⟨1, -6, 20⟩), []⟩) = some (some (sample_field 11)) :=
  C10_double_click_on_field sample_env_double 0 0 ⟨sample_form 1 (some ⟨1, -6, 20⟩), []⟩
    (fun i => if 0 ≤ i ∧ i < 5 then some (sample_field (10 + i.toNat)) else none)
    (fun _ => { pmin := 0, pmax := 4 }) 11 3 1
    (by decide) rfl rfl (by decide) (by decide) (by decide) (by decide)
    ⟨5, ⟨by decide, 3, rfl⟩, by decide, by decide, by decide, rfl⟩
    (by decide) (by decide) (by decide)
    (fun j h1 h2 => by
      have hj : j = 0 := by
        have h3 : (0 : Int) ≤ j := h1
        omega
      subst hj
      decide)
    rfl rfl
    (fun _ _ _ => rfl) (fun _ => rfl) (fun _ => rfl)

/-- C11. A posted form with connected fields that is not in the driver (and meets the two
assertions), and a symbol `c` of the request range whose table entry stores `c`: when the
category id of the entry (the packed code shifted right by `ID_Shft` and masked to 16 bits)
is 9, the number of handler categories, or more, or the entry has no handler, the driver
returns `E_SYSTEM_ERROR`; no handler and no overload wrapper is called, the only call being
the refresh. The sentinel is taken not to be the symbol. -/
theorem C11_system_error (E : Env) (fuel : Nat) (status c : Int) (w : World)
    (hready : dispatchable E w.form) (hmagic : c ≠ E.FIRST_ACTIVE_MAGIC)
    (hbound : bound E c)
    (hbad : method_of E (E.bindings (c - E.MIN_FORM_COMMAND)) ≥ 9 ∨
      (E.bindings (c - E.MIN_FORM_COMMAND)).cmd = none) :
    form_driver E (fuel + 1) .ptr status c w =
      .ok (E.E_SYSTEM_ERROR,
        { form := E._nc_Refresh_Current_Field w.form,
          trace := w.trace ++ [.refresh_current_field] }) := by
  obtain ⟨field, hf⟩ := Option.isSome_iff_exists.mp hready.1
  rw [form_driver_dispatch E fuel status c w field hf hready hmagic]
  simp only [dispatch, lookup_of_bound E c hbound, request]
  have h9 : nMethods = 9 := rfl
  rcases hbad with hid | hcmd
  · simp [h9, hid, finish]
  · by_cases hid : method_of E (E.bindings (c - E.MIN_FORM_COMMAND)) ≥ 9
    · simp [h9, hid, finish]
    · simp [h9, hid, hcmd, finish]

/-- Witness of C11: request 543, whose entry (31) of the sample table has no handler. -/
theorem C11_system_error_witness :
    form_driver sample_env 1 .ptr 0 543 ⟨sample_form 1 none, []⟩ =
      .ok (sample_env.E_SYSTEM_ERROR,
        { form := sample_env._nc_Refresh_Current_Field (sample_form 1 none),
          trace := [] ++ [.refresh_current_field] }) :=
  C11_system_error sample_env 0 0 543 ⟨sample_form 1 none, []⟩
    (by decide) (by decide) (by decide) (Or.inr (by decide))

/-- C12. A posted form with connected fields that is not in the driver (and meets the two
assertions), and a symbol that is neither a bound request, nor the mouse symbol, nor the
sentinel: when the input mode marks a literal character (`status != KEY_CODE_YES`) the driver
calls data entry once, with that symbol, then the refresh, and returns the code data entry
returned; when the input mode marks a function-key code (`status == KEY_CODE_YES`) the driver
returns `E_UNKNOWN_COMMAND`, and the only call is the refresh. -/
theorem C12_data_or_unknown (E : Env) (fuel : Nat) (status c : Int) (w : World)
    (hready : dispatchable E w.form)
    (hmagic : c ≠ E.FIRST_ACTIVE_MAGIC) (hmouse : c ≠ E.KEY_MOUSE)
    (hunbound : ¬ bound E c) :
    (status ≠ E.KEY_CODE_YES →
      form_driver E (fuel + 1) .ptr status c w =
        .ok ((E.Data_Entry w.form c).1,
          { form := E._nc_Refresh_Current_Field (E.Data_Entry w.form c).2,
            trace := w.trace ++ [.data_entry c, .refresh_current_field] })) ∧
    (status = E.KEY_CODE_YES →
      form_driver E (fuel + 1) .ptr status c w =
        .ok (E.E_UNKNOWN_COMMAND,
          { form := E._nc_Refresh_Current_Field w.form,
            trace := w.trace ++ [.refresh_current_field] })) := by
  obtain ⟨field, hf⟩ := Option.isSome_iff_exists.mp hready.1
  have hm2 : ¬ E.KEY_MOUSE = c := fun h => hmouse h.symm
  rw [form_driver_dispatch E fuel status c w field hf hready hmagic]
  constructor
  · intro hs
    simp [dispatch, lookup_of_not_bound E c hunbound, hm2, hs, finish, World.run]
  · intro hs
    simp [dispatch, lookup_of_not_bound E c hunbound, hm2, hs, finish]

/-- Witness of C12: the character `a` (97), as a literal and as a key code. -/
theorem C12_data_or_unknown_witness :
    ((0 : Int) ≠ sample_env.KEY_CODE_YES →
      form_driver sample_env 1 .ptr 0 97 ⟨sample_form 1 none, []⟩ =
        .ok ((sample_env.Data_Entry (sample_form 1 none) 97).1,
          { form := sample_env._nc_Refresh_Current_Field
              (sample_env.Data_Entry (sample_form 1 none) 97).2,
            trace := [] ++ [.data_entry 97, .refresh_current_field] })) ∧
    ((0 : Int) = sample_env.KEY_CODE_YES →
      form_driver sample_env 1 .ptr 0 97 ⟨sample_form 1 none, []⟩ =
        .ok (sample_env.E_UNKNOWN_COMMAND,
          { form := sample_env._nc_Refresh_Current_Field (sample_form 1 none),
            trace := [] ++ [.refresh_current_field] })) :=
  C12_data_or_unknown sample_env 0 0 97 ⟨sample_form 1 none, []⟩
    (by decide) (by decide) (by decide) (by decide)

/-- C13. A call that returns through a precondition failure (null form: `E_BAD_ARGUMENT`; no
connected fields: `E_NOT_CONNECTED`; in-driver: `E_BAD_STATE`; not posted: `E_NOT_POSTED`,
the first that fails in this order) returns that code and leaves the state exactly as it was:
the form, its current field and status bits included, is unchanged and no collaborator call
is recorded. The exception is the call with the sentinel on a form with connected fields:
whatever the in-driver and posted bits are, it replaces the current field by the answer of
the first-active-field query and returns `E_OK`. Forms with connected fields are taken to
meet the two assertions. -/
theorem C13_no_mutation_on_failure (E : Env) (fuel : Nat) (form : FormPtr) (status c : Int)
    (w : World) (hassert : asserts_hold w.form) :
    (∀ code, precondition_failure E form w.form = some code →
      ¬ sentinel_call E form w.form c →
      form_driver E (fuel + 1) form status c w = .ok (code, w)) ∧
    (sentinel_call E form w.form c →
      form_driver E (fuel + 1) form status c w =
        .ok (E.E_OK,
          { form := { w.form with current := E._nc_First_Active_Field w.form },
            trace := w.trace ++ [.first_active_field] })) := by
  constructor
  · intro code hfail hsent
    exact form_driver_precondition_failure E fuel form status c w code hfail hassert hsent
  · rintro ⟨hptr, hfield, hc⟩
    obtain ⟨field, hf⟩ := Option.isSome_iff_exists.mp hfield
    obtain ⟨page, hp⟩ := Option.isSome_iff_exists.mp (hassert hfield).1
    subst hptr
    simp [form_driver, hf, hp, hc]

/-- Witness of C13: the sample form, in the driver and not posted, with the mouse symbol;
the in-driver test is the first that fails. -/
theorem C13_no_mutation_on_failure_witness :
    asserts_hold (sample_form 2 none) ∧
    precondition_failure sample_env .ptr (sample_form 2 none) = some sample_env.E_BAD_STATE ∧
    ¬ sentinel_call sample_env .ptr (sample_form 2 none) sample_env.KEY_MOUSE ∧
    form_driver sample_env 1 .ptr 0 sample_env.KEY_MOUSE ⟨sample_form 2 none, []⟩ =
      .ok (sample_env.E_BAD_STATE, ⟨sample_form 2 none, []⟩) :=
  ⟨by decide, by decide, by decide,
   (C13_no_mutation_on_failure sample_env 0 .ptr 0 sample_env.KEY_MOUSE
      ⟨sample_form 2 none, []⟩ (by decide)).1 sample_env.E_BAD_STATE (by decide) (by decide)⟩

/-- C14. A call that passes the precondition checks (a non-null form with connected fields
that is not in the driver and is posted, a symbol other than the sentinel; the two assertions
hold) returns a result code, whichever branch it takes (request, system error, mouse, data
entry, unknown command), and the last call it records is the refresh, whose form is the form
it returns. A call that returns from a precondition failure records no call at all, and a
call that returns from the sentinel branch records the first-active-field query only: the
refresh is not called there. The requests of the mouse branch are taken to differ from the
mouse symbol, so that the recursion ends. -/
theorem C14_refresh_on_exit (E : Env) (fuel : Nat) (form : FormPtr) (status c : Int)
    (w : World) (hassert : asserts_hold w.form)
    (hreq : ∀ r ∈ scroll_requests E, r ≠ E.KEY_MOUSE) :
    (dispatchable E w.form → c ≠ E.FIRST_ACTIVE_MAGIC →
      ∃ (res : Int) (g : FORM) (calls : List Call),
        form_driver E (fuel + 2) .ptr status c w =
          .ok (res, { form := E._nc_Refresh_Current_Field g,
                      trace := w.trace ++ calls ++ [.refresh_current_field] })) ∧
    (∀ code, precondition_failure E form w.form = some code →
      ¬ sentinel_call E form w.form c →
      final_trace (form_driver E (fuel + 2) form status c w) = some w.trace) ∧
    (sentinel_call E form w.form c →
      final_trace (form_driver E (fuel + 2) form status c w) =
        some (w.trace ++ [.first_active_field])) := by
  refine ⟨fun hready hc => form_driver_total_calls E fuel status c w hready hc hreq, ?_, ?_⟩
  · intro code hfail hsent
    rw [form_driver_precondition_failure E (fuel + 1) form status c w code hfail hassert hsent]
    rfl
  · rintro ⟨hptr, hfield, hc⟩
    obtain ⟨field, hf⟩ := Option.isSome_iff_exists.mp hfield
    obtain ⟨page, hp⟩ := Option.isSome_iff_exists.mp (hassert hfield).1
    subst hptr
    simp [form_driver, hf, hp, hc, final_trace]

/-- Witness of C14: the posted sample form with the character `a` as a literal. -/
theorem C14_refresh_on_exit_witness :
    dispatchable sample_env (sample_form 1 none) ∧
    ∃ (res : Int) (g : FORM) (calls : List Call),
      form_driver sample_env 2 .ptr 0 97 ⟨sample_form 1 none, []⟩ =
        .ok (res, { form := sample_env._nc_Refresh_Current_Field g,
                    trace := [] ++ calls ++ [.refresh_current_field] }) :=
  ⟨by decide,
   (C14_refresh_on_exit sample_env 0 .ptr 0 97 ⟨sample_form 1 none, []⟩ (by decide)
      (by decide)).1 (by decide) (by decide)⟩

/-- C15. A non-null form with connected fields (and, as the form invariant has it, a page
array): the call with the sentinel, made twice in a row, returns `E_OK` both times, and the
form after the second call is the form after the first, with the same current field. The
first-active-field query is a query on the fields of the form: its answer is taken not to
depend on which field is current. -/
theorem C15_sentinel_idempotent (E : Env) (fuel fuel2 : Nat) (s1 s2 : Int) (w : World)
    (hfield : w.form.field.isSome) (hpage : w.form.page.isSome)
    (hquery : ∀ (f : FORM) (cur : Option FIELD),
      E._nc_First_Active_Field { f with current := cur } = E._nc_First_Active_Field f) :
    ∃ w1 w2,
      form_driver E (fuel + 1) .ptr s1 E.FIRST_ACTIVE_MAGIC w = .ok (E.E_OK, w1) ∧
      form_driver E (fuel2 + 1) .ptr s2 E.FIRST_ACTIVE_MAGIC w1 = .ok (E.E_OK, w2) ∧
      w1.form.current = E._nc_First_Active_Field w.form ∧
      w2.form.current = w1.form.current ∧
      w2.form = w1.form := by
  obtain ⟨field, hf⟩ := Option.isSome_iff_exists.mp hfield
  obtain ⟨page, hp⟩ := Option.isSome_iff_exists.mp hpage
  refine ⟨{ form := { w.form with current := E._nc_First_Active_Field w.form },
            trace := w.trace ++ [.first_active_field] },
          { form := { w.form with current := E._nc_First_Active_Field w.form },
            trace := w.trace ++ [.first_active_field] ++ [.first_active_field] },
          ?_, ?_, rfl, rfl, rfl⟩
  · simp [form_driver, hf, hp]
  · have hq := hquery w.form (E._nc_First_Active_Field w.form)
    simp only [form_driver, hf, hp, Option.isNone_some, Bool.false_eq_true, if_false, if_true]
    rw [← hf, ← hp, hq]

/-- Witness of C15: the sample form, in the driver and not posted, field 12 current. -/
theorem C15_sentinel_idempotent_witness :
    ∃ w1 w2,
      form_driver sample_env 1 .ptr 0 sample_env.FIRST_ACTIVE_MAGIC
        ⟨sample_form 2 none, []⟩ = .ok (sample_env.E_OK, w1) ∧
      form_driver sample_env 1 .ptr 256 sample_env.FIRST_ACTIVE_MAGIC w1 =
        .ok (sample_env.E_OK, w2) ∧
      w1.form.current = sample_env._nc_First_Active_Field (sample_form 2 none) ∧
      w2.form.current = w1.form.current ∧
      w2.form = w1.form :=
  C15_sentinel_idempotent sample_env 0 0 0 256 ⟨sample_form 2 none, []⟩
    (by decide) (by decide) (fun _ _ => rfl)

/-- C16. A posted form with connected fields that is not in the driver (and meets the two
assertions), called with the mouse symbol: when the event is no button-1 click (none of the
single, double or triple click bits is set), or its coordinates are not enclosed by the
window of the form, or `mouse_trafo` fails, the driver returns `E_REQUEST_DENIED`, which is
not `E_UNKNOWN_COMMAND`; the only calls are `getmouse` and the refresh, so no request is
dispatched, and, refresh keeping the current field, the current field is unchanged. -/
theorem C16_mouse_denied (E : Env) (fuel : Nat) (status : Int) (w : World)
    (hready : dispatchable E w.form)
    (hmagic : E.KEY_MOUSE ≠ E.FIRST_ACTIVE_MAGIC) (hunbound : ¬ bound E E.KEY_MOUSE)
    (hne : E.E_REQUEST_DENIED ≠ E.E_UNKNOWN_COMMAND)
    (hmiss : ¬ button1_click E ∨
      E.wenclose (form_win E w.form) E.getmouse.y E.getmouse.x = false ∨
      E.mouse_trafo E.getmouse.y E.getmouse.x = none)
    (href : ∀ f, (E._nc_Refresh_Current_Field f).current = f.current) :
    form_driver E (fuel + 1) .ptr status E.KEY_MOUSE w =
        .ok (E.E_REQUEST_DENIED,
          { form := E._nc_Refresh_Current_Field w.form,
            trace := w.trace ++ [.getmouse, .refresh_current_field] }) ∧
    result_code (form_driver E (fuel + 1) .ptr status E.KEY_MOUSE w) ≠
        some E.E_UNKNOWN_COMMAND ∧
    final_current (form_driver E (fuel + 1) .ptr status E.KEY_MOUSE w) =
        some w.form.current := by
  obtain ⟨field, hf⟩ := Option.isSome_iff_exists.mp hready.1
  have hrun : form_driver E (fuel + 1) .ptr status E.KEY_MOUSE w =
      .ok (E.E_REQUEST_DENIED,
        { form := E._nc_Refresh_Current_Field w.form,
          trace := w.trace ++ [.getmouse, .refresh_current_field] }) := by
    rw [form_driver_dispatch E fuel status E.KEY_MOUSE w field hf hready hmagic]
    simp only [dispatch, lookup_of_not_bound E _ hunbound, if_true]
    rw [mouse_denied E _ field w hmiss]
    simp [finish]
  refine ⟨hrun, ?_, ?_⟩
  · rw [hrun]
    intro h
    exact hne (Option.some.inj h)
  · rw [hrun]
    simp [final_current, href]

/-- Witness of C16: the sample form with a window of rows 10..15, which does not enclose the
sample click at row 5. -/
theorem C16_mouse_denied_witness :
    form_driver sample_env 1 .ptr 0 sample_env.KEY_MOUSE
        ⟨{ sample_form 1 none with win := some ⟨2, 10, 5⟩ }, []⟩ =
      .ok (sample_env.E_REQUEST_DENIED,
        { form := sample_env._nc_Refresh_Current_Field
            { sample_form 1 none with win := some ⟨2, 10, 5⟩ },
          trace := [] ++ [.getmouse, .refresh_current_field] }) ∧
    result_code (form_driver sample_env 1 .ptr 0 sample_env.KEY_MOUSE
        ⟨{ sample_form 1 none with win := some ⟨2, 10, 5⟩ }, []⟩) ≠
      some sample_env.E_UNKNOWN_COMMAND ∧
    final_current (form_driver sample_env 1 .ptr 0 sample_env.KEY_MOUSE
        ⟨{ sample_form 1 none with win := some ⟨2, 10, 5⟩ }, []⟩) =
      some (sample_form 1 none).current :=
  C16_mouse_denied sample_env 0 0 ⟨{ sample_form 1 none with win := some ⟨2, 10, 5⟩ }, []⟩
    (by decide) (by decide) (by decide) (by decide) (Or.inr (Or.inl (by decide)))
    (fun _ => rfl)

/-- C17. In the field-selection path of the mouse branch (a button-1 click inside the field
sub-window on field `i`, the lowest index of the current page whose field is selectable and
encloses the point) a failure is returned as it is. When set-current-field returns a code
other than `E_OK`, the driver returns exactly that code: cursor positioning is not called, no
later field is tried (the calls are `getmouse`, set-current-field on field `i`, the refresh),
and the code is not replaced by `E_UNKNOWN_COMMAND` whatever the click is. When
set-current-field succeeds and cursor positioning returns a code other than `E_OK`, the
driver returns exactly that code. -/
theorem C17_selection_failure_verbatim (E : Env) (fuel : Nat) (status : Int) (w : World)
    (field : Int → Option FIELD) (page : Int → PAGE) (ry rx i : Int)
    (hready : dispatchable E w.form)
    (hfield : w.form.field = some field) (hpage : w.form.page = some page)
    (hmagic : E.KEY_MOUSE ≠ E.FIRST_ACTIVE_MAGIC) (hunbound : ¬ bound E E.KEY_MOUSE)
    (hbutton : button1_click E) (hland : lands_in_sub E w.form ry rx)
    (hlo : (page w.form.curpage).pmin ≤ i) (hhi : i ≤ (page w.form.curpage).pmax)
    (hhit : is_hit E field ry rx i)
    (hfirst : ∀ j, (page w.form.curpage).pmin ≤ j → j < i → ¬ is_hit E field ry rx j) :
    ((E._nc_Set_Current_Field w.form (field i)).1 ≠ E.E_OK →
      form_driver E (fuel + 1) .ptr status E.KEY_MOUSE w =
        .ok ((E._nc_Set_Current_Field w.form (field i)).1,
          { form := E._nc_Refresh_Current_Field (E._nc_Set_Current_Field w.form (field i)).2,
            trace := w.trace ++
              [.getmouse, .set_current_field (field i), .refresh_current_field] })) ∧
    ((E._nc_Set_Current_Field w.form (field i)).1 = E.E_OK →
      (E._nc_Position_Form_Cursor (E._nc_Set_Current_Field w.form (field i)).2).1 ≠ E.E_OK →
      form_driver E (fuel + 1) .ptr status E.KEY_MOUSE w =
        .ok ((E._nc_Position_Form_Cursor (E._nc_Set_Current_Field w.form (field i)).2).1,
          { form := E._nc_Refresh_Current_Field
              (E._nc_Position_Form_Cursor (E._nc_Set_Current_Field w.form (field i)).2).2,
            trace := w.trace ++
              [.getmouse, .set_current_field (field i), .position_form_cursor,
               .refresh_current_field] })) := by
  have hrun : form_driver E (fuel + 1) .ptr status E.KEY_MOUSE w =
      finish E (.ok (select_field E E.getmouse.bstate (field i)
        { form := w.form, trace := w.trace ++ [.getmouse] })) := by
    rw [form_driver_dispatch E fuel status E.KEY_MOUSE w field hfield hready hmagic]
    simp only [dispatch, lookup_of_not_bound E _ hunbound, if_true]
    rw [mouse_in_sub E _ field page w ry rx hpage hbutton hland,
      hit_loop_first E field _ ry rx _ _ _ i _ hlo (by omega) hhit hfirst]
  constructor
  · intro hs
    rw [hrun]
    simp [select_field, World.run, hs, finish]
  · intro hs hp
    rw [hrun]
    simp [select_field, World.run, hs, hp, finish]

/-- Witness of C17: the double click of `sample_env_rejecting` on the field of index 1, which
set-current-field rejects with -13. -/
theorem C17_selection_failure_verbatim_witness :
    (sample_env_rejecting._nc_Set_Current_Field (sample_form 1 (some ⟨1, -6, 20⟩))
        (some (sample_field 11))).1 ≠ sample_env_rejecting.E_OK ∧
    form_driver sample_env_rejecting 1 .ptr 0 sample_env_rejecting.KEY_MOUSE
        ⟨sample_form 1 (some ⟨1, -6, 20⟩), []⟩ =
      .ok (-13,
        { form := sample_form 1 (some ⟨1, -6, 20⟩),
          trace := [.getmouse, .set_current_field (some (sample_field 11)),
            .refresh_current_field] }) :=
  ⟨by decide,
   (C17_selection_failure_verbatim sample_env_rejecting 0 0
      ⟨sample_form 1 (some ⟨1, -6, 20⟩), []⟩
      (fun i => if 0 ≤ i ∧ i < 5 then some (sample_field (10 + i.toNat)) else none)
      (fun _ => { pmin := 0, pmax := 4 }) 11 3 1
      (by decide) rfl rfl (by decide) (by decide) (by decide)
      ⟨5, ⟨by decide, 3, rfl⟩, by decide, by decide, by decide, rfl⟩
      (by decide) (by decide) (by decide)
      (fun j h1 h2 => by
        have hj : j = 0 := by
          have h3 : (0 : Int) ≤ j := h1
          omega
        subst hj
        decide)).1 (by decide)⟩

/-- C18. The preconditions are checked in the stated order, each ending the call with its own
code. In particular: a non-null form with connected fields (meeting the two assertions) that
is both in the driver and not posted gets `E_BAD_STATE` for every symbol other than the
sentinel, the in-driver test coming before the posted test; and a non-null form with no
connected fields gets `E_NOT_CONNECTED` whatever its status bits are. In general the result
is the code of the first precondition that fails in the order null form, no connected
fields, in-driver, not posted. -/
theorem C18_precondition_order (E : Env) (fuel : Nat) (status c : Int) (w : World)
    (hassert : asserts_hold w.form) :
    (w.form.field.isSome → w.form.status &&& E._IN_DRIVER ≠ 0 →
      w.form.status &&& E._POSTED = 0 → c ≠ E.FIRST_ACTIVE_MAGIC →
      form_driver E (fuel + 1) .ptr status c w = .ok (E.E_BAD_STATE, w)) ∧
    (w.form.field = none →
      form_driver E (fuel + 1) .ptr status c w = .ok (E.E_NOT_CONNECTED, w)) ∧
    (∀ form code, precondition_failure E form w.form = some code →
      ¬ sentinel_call E form w.form c →
      result_code (form_driver E (fuel + 1) form status c w) = some code) := by
  refine ⟨?_, ?_, ?_⟩
  · intro hfield hdrv _ hc
    refine form_driver_precondition_failure E fuel .ptr status c w _ ?_ hassert
      (fun h => hc h.2.2)
    have hnone : w.form.field.isNone = false := by
      cases hf : w.form.field with
      | none => simp [hf] at hfield
      | some field => rfl
    simp [precondition_failure, hnone, hdrv]
  · intro hf
    simp [form_driver, hf]
  · intro form code hfail hsent
    rw [form_driver_precondition_failure E fuel form status c w code hfail hassert hsent]
    rfl

/-- Witness of C18: the sample form, in the driver and not posted, with request 530. -/
theorem C18_precondition_order_witness :
    asserts_hold (sample_form 2 none) ∧
    (sample_form 2 none).status &&& sample_env._IN_DRIVER ≠ 0 ∧
    (sample_form 2 none).status &&& sample_env._POSTED = 0 ∧
    form_driver sample_env 1 .ptr 0 530 ⟨sample_form 2 none, []⟩ =
      .ok (sample_env.E_BAD_STATE, ⟨sample_form 2 none, []⟩) :=
  ⟨by decide, by decide, by decide,
   (C18_precondition_order sample_env 0 0 530 ⟨sample_form 2 none, []⟩ (by decide)).1
     (by decide) (by decide) (by decide) (by decide)⟩

/-- C19. A posted form with connected fields that is not in the driver (and meets the two
assertions), and a button-1 click inside the window of the form with transformed row `ry`,
the field sub-window having top row `_begy` and maximum row offset `_maxy` (not negative).
When `ry < _begy` the driver makes the recursive call with a previous-direction request
(`REQ_PREV_FIELD`, `REQ_PREV_PAGE` or `REQ_FIRST_FIELD`); when `ry > _begy + _maxy` it makes
the recursive call with a next-direction request (`REQ_NEXT_FIELD`, `REQ_NEXT_PAGE` or
`REQ_LAST_FIELD`); and for every row with `_begy <= ry <= _begy + _maxy`, both ends included,
it makes no recursive call (the outcome is there for every recursion budget, the budget that
allows no recursive call included) and the outcome is that of the field hit-test. The three
cases exclude one another and leave no row out, so each kind of request is made exactly in
its case. -/
theorem C19_row_boundaries (E : Env) (fuel : Nat) (status : Int) (w : World)
    (field : Int → Option FIELD) (page : Int → PAGE) (ry : Int)
    (hready : dispatchable E w.form)
    (hfield : w.form.field = some field) (hpage : w.form.page = some page)
    (hmagic : E.KEY_MOUSE ≠ E.FIRST_ACTIVE_MAGIC) (hunbound : ¬ bound E E.KEY_MOUSE)
    (hbutton : button1_click E) (hland : lands_in_window E w.form ry)
    (hmaxy : 0 ≤ (form_sub E w.form)._maxy) :
    (ry < (form_sub E w.form)._begy →
      click_request E true E.getmouse.bstate ∈
        [E.REQ_PREV_FIELD, E.REQ_PREV_PAGE, E.REQ_FIRST_FIELD] ∧
      form_driver E (fuel + 1) .ptr status E.KEY_MOUSE w =
        finish E (form_driver E fuel .ptr E.recursive_status
          (click_request E true E.getmouse.bstate)
          { form := w.form, trace := w.trace ++ [.getmouse] })) ∧
    (ry > (form_sub E w.form)._begy + (form_sub E w.form)._maxy →
      click_request E false E.getmouse.bstate ∈
        [E.REQ_NEXT_FIELD, E.REQ_NEXT_PAGE, E.REQ_LAST_FIELD] ∧
      form_driver E (fuel + 1) .ptr status E.KEY_MOUSE w =
        finish E (form_driver E fuel .ptr E.recursive_status
          (click_request E false E.getmouse.bstate)
          { form := w.form, trace := w.trace ++ [.getmouse] })) ∧
    ((form_sub E w.form)._begy ≤ ry →
      ry ≤ (form_sub E w.form)._begy + (form_sub E w.form)._maxy →
      form_driver E (fuel + 1) .ptr status E.KEY_MOUSE w =
        finish E (.ok (field_hit_test E field page
          { form := w.form, trace := w.trace ++ [.getmouse] }))) := by
  have hrun := form_driver_dispatch E fuel status E.KEY_MOUSE w field hfield hready hmagic
  simp only [dispatch, lookup_of_not_bound E _ hunbound, if_true] at hrun
  refine ⟨fun hlt => ⟨?_, ?_⟩, fun hgt => ⟨?_, ?_⟩, fun hlo hhi => ?_⟩
  · simp only [click_request, if_true]
    split_ifs <;> simp
  · rw [hrun, mouse_outside_rows E _ field w ry true hbutton hland hmaxy
      (by simpa [outside_rows] using hlt)]
  · simp only [click_request, Bool.false_eq_true, if_false]
    split_ifs <;> simp
  · rw [hrun, mouse_outside_rows E _ field w ry false hbutton hland hmaxy
      (by simpa [outside_rows] using hgt)]
  · rw [hrun, mouse_inside_rows E _ field page w ry hpage hbutton hland hlo hhi]

/-- Witness of C19: the sample click at row 5 and a sub-window whose rows are 5..15; the
click is on the top row, and the driver returns with the budget that allows no recursive
call. -/
theorem C19_row_boundaries_witness :
    (form_sub sample_env (sample_form 1 (some ⟨1, 5, 10⟩)))._begy ≤ 5 ∧
    form_driver sample_env 1 .ptr 0 sample_env.KEY_MOUSE
        ⟨sample_form 1 (some ⟨1, 5, 10⟩), []⟩ =
      finish sample_env (.ok (field_hit_test sample_env
        (fun i => if 0 ≤ i ∧ i < 5 then some (sample_field (10 + i.toNat)) else none)
        (fun _ => { pmin := 0, pmax := 4 })
        { form := sample_form 1 (some ⟨1, 5, 10⟩), trace := [] ++ [.getmouse] })) :=
  ⟨by decide,
   (C19_row_boundaries sample_env 0 0 ⟨sample_form 1 (some ⟨1, 5, 10⟩), []⟩
      (fun i => if 0 ≤ i ∧ i < 5 then some (sample_field (10 + i.toNat)) else none)
      (fun _ => { pmin := 0, pmax := 4 }) 5
      (by decide) rfl rfl (by decide) (by decide) (by decide) ⟨by decide, 3, rfl⟩
      (by decide)).2.2 (by decide) (by decide)⟩

/-- C20. A symbol that is a bound request (in the request range, its table entry storing it)
or the mouse symbol, and any form: two calls on the same state that differ only in the input
mode have the same outcome, result code and state alike. Data entry is never called with such
a symbol: every data-entry call a run with such a symbol records carries a symbol that is
neither a bound request nor the mouse symbol (it can only be a request the mouse branch
passes on whose table entry does not store it), and when the symbol of the call is a bound
request, or the requests of the mouse branch are all bound, the run records no data-entry
call at all, whatever the input mode. For a dispatchable form the runs compared do return a
result code. -/
theorem C20_input_mode_only_fallback (E : Env) (fuel : Nat) (form : FormPtr) (c : Int)
    (f : FORM) (hc : bound E c ∨ c = E.KEY_MOUSE) :
    (∀ s1 s2 w, form_driver E fuel form s1 c w = form_driver E fuel form s2 c w) ∧
    (∀ status res w2, form_driver E fuel form status c { form := f, trace := [] } =
        .ok (res, w2) →
      ∀ c2, Call.data_entry c2 ∈ w2.trace → ¬ bound E c2 ∧ c2 ≠ E.KEY_MOUSE) ∧
    ((bound E c ∨ ∀ r ∈ scroll_requests E, bound E r) →
      ∀ status res w2, form_driver E fuel form status c { form := f, trace := [] } =
          .ok (res, w2) →
        ∀ c2, Call.data_entry c2 ∉ w2.trace) ∧
    (dispatchable E f → c ≠ E.FIRST_ACTIVE_MAGIC →
      (∀ r ∈ scroll_requests E, r ≠ E.KEY_MOUSE) →
      ∀ status, ∃ res w2, form_driver E (fuel + 2) .ptr status c { form := f, trace := [] } =
        .ok (res, w2)) := by
  have hempty : ∀ Q : Int → Prop, data_entries Q ({ form := f, trace := [] } : World).trace :=
    fun Q c2 h2 => by cases h2
  refine ⟨?_, ?_, ?_, ?_⟩
  · intro s1 s2 w
    rcases hc with hb | hm
    · exact form_driver_bound_status E fuel form s1 s2 c w hb
    · rw [hm]
      exact form_driver_mouse_status E fuel form s1 s2 w
  · intro status res w2 hrun c2 h2
    exact form_driver_data_entries E (fun c2 => ¬ bound E c2 ∧ c2 ≠ E.KEY_MOUSE) fuel form
      status c _ (res, w2) (fun h1 h3 => ⟨h1, h3⟩) (fun _ _ r _ h1 h3 => ⟨h1, h3⟩)
      (hempty _) hrun c2 h2
  · intro htable status res w2 hrun c2 h2
    refine form_driver_data_entries E (fun _ => False) fuel form status c _ (res, w2)
      ?_ ?_ (hempty _) hrun c2 h2
    · intro hnb hne
      rcases hc with hb | hm
      · exact hnb hb
      · exact hne hm
    · intro _ hnb r hr hnbr _
      rcases htable with hb | hall
      · exact hnb hb
      · exact hnbr (hall r hr)
  · intro hready hmagic hreq status
    obtain ⟨res, w2, h⟩ := form_driver_total E fuel status c { form := f, trace := [] }
      hready hmagic hreq
    exact ⟨res, _, h⟩

/-- Witness of C20: request 530 on the posted sample form, as a literal (0) and as a key code
(256). -/
theorem C20_input_mode_only_fallback_witness :
    bound sample_env 530 ∧
    form_driver sample_env 2 .ptr 0 530 ⟨sample_form 1 none, []⟩ =
      form_driver sample_env 2 .ptr 256 530 ⟨sample_form 1 none, []⟩ :=
  ⟨by decide,
   (C20_input_mode_only_fallback sample_env 2 .ptr 530 (sample_form 1 none)
      (Or.inl (by decide))).1 0 256 ⟨sample_form 1 none, []⟩⟩

end FormDriver
